import Mathlib

/-!
# MERN-Stack-Ascent: request handlers of the Express servers

A shallow embedding of the route handlers of the day-by-day Express servers
(`Day-8`, `Day-10`, `Day-11`, `Day-17`, `Day-18`, `Day-23`, `Day-25`) and the
properties of their responses.

Conventions of the embedding:

* a JavaScript value that travels as JSON is a `Json`; a property read that
  yields `undefined` is `none`;
* JSON numbers are modelled by `Int` (fractions are not represented);
* `parseInt` gives `NaN`, an infinity, or an integer rounded to a double;
* the methods `toLowerCase` and `toUpperCase` of the engine are arguments
  (`lower`, `upper`) of the handlers and theorems that use them, so what is
  proved holds for the Unicode conversions of the engine; `asciiLower` and
  `asciiUpper` are their values on ASCII strings and stand in for them in the
  examples;
* a handler is a function from the store (and the request) to the new store
  and a `Response`; values the handler reads from the clock or from the
  process (`new Date()`, `process.uptime()`) are arguments.
-/

set_option autoImplicit false

namespace MernAscent

/-! ## JSON values and JavaScript objects -/

/-- JSON values: what `express.json()` hands to a handler and what `res.json` sends. -/
inductive Json where
  | null
  | bool (b : Bool)
  | num (n : Int)
  | str (s : String)
  | arr (xs : List Json)
  | obj (kvs : List (String × Json))
  deriving Repr

namespace Json

mutual
/-- Decision procedure for equality of JSON values. -/
def decEqJson : (a b : Json) → Decidable (a = b)
  | .null, .null => isTrue rfl
  | .bool x, .bool y =>
    if h : x = y then isTrue (by rw [h]) else isFalse (by intro e; cases e; exact h rfl)
  | .num x, .num y =>
    if h : x = y then isTrue (by rw [h]) else isFalse (by intro e; cases e; exact h rfl)
  | .str x, .str y =>
    if h : x = y then isTrue (by rw [h]) else isFalse (by intro e; cases e; exact h rfl)
  | .arr x, .arr y =>
    match decEqList x y with
    | isTrue h => isTrue (by rw [h])
    | isFalse h => isFalse (by intro e; cases e; exact h rfl)
  | .obj x, .obj y =>
    match decEqKvs x y with
    | isTrue h => isTrue (by rw [h])
    | isFalse h => isFalse (by intro e; cases e; exact h rfl)
  | .null, .bool _ | .null, .num _ | .null, .str _ | .null, .arr _ | .null, .obj _
  | .bool _, .null | .bool _, .num _ | .bool _, .str _ | .bool _, .arr _ | .bool _, .obj _
  | .num _, .null | .num _, .bool _ | .num _, .str _ | .num _, .arr _ | .num _, .obj _
  | .str _, .null | .str _, .bool _ | .str _, .num _ | .str _, .arr _ | .str _, .obj _
  | .arr _, .null | .arr _, .bool _ | .arr _, .num _ | .arr _, .str _ | .arr _, .obj _
  | .obj _, .null | .obj _, .bool _ | .obj _, .num _ | .obj _, .str _ | .obj _, .arr _ =>
    isFalse (by intro e; cases e)
/-- Decision procedure for equality of JSON arrays. -/
def decEqList : (a b : List Json) → Decidable (a = b)
  | [], [] => isTrue rfl
  | [], _ :: _ => isFalse (by intro e; cases e)
  | _ :: _, [] => isFalse (by intro e; cases e)
  | x :: xs, y :: ys =>
    match decEqJson x y, decEqList xs ys with
    | isTrue h1, isTrue h2 => isTrue (by rw [h1, h2])
    | isFalse h, _ => isFalse (by intro e; cases e; exact h rfl)
    | _, isFalse h => isFalse (by intro e; cases e; exact h rfl)
/-- Decision procedure for equality of JSON property lists. -/
def decEqKvs : (a b : List (String × Json)) → Decidable (a = b)
  | [], [] => isTrue rfl
  | [], _ :: _ => isFalse (by intro e; cases e)
  | _ :: _, [] => isFalse (by intro e; cases e)
  | (k, x) :: xs, (l, y) :: ys =>
    if hk : k = l then
      match decEqJson x y, decEqKvs xs ys with
      | isTrue h1, isTrue h2 => isTrue (by rw [hk, h1, h2])
      | isFalse h, _ => isFalse (by intro e; cases e; exact h rfl)
      | _, isFalse h => isFalse (by intro e; cases e; exact h rfl)
    else isFalse (by intro e; cases e; exact hk rfl)
end

instance : DecidableEq Json := decEqJson

end Json

/-- A JavaScript object as the list of its properties, in insertion order.
A key that occurs twice denotes its last value, as in `JSON.parse` and in an
object literal. -/
abbrev Obj := List (String × Json)

/-- Property read `o[k]`; `none` is `undefined`. -/
def jsGet : Obj → String → Option Json
  | [], _ => none
  | (k', v) :: rest, k =>
    match jsGet rest k with
    | some w => some w
    | none => if k' = k then some v else none

/-- Whether `k` is an own property of `o`. -/
def jsHas (o : Obj) (k : String) : Bool := o.any (fun e => decide (e.1 = k))

/-- Property write `o[k] = v`: an existing property keeps its place, a new one is
appended. -/
def jsSet (o : Obj) (k : String) (v : Json) : Obj :=
  if jsHas o k then o.map (fun e => if e.1 = k then (k, v) else e) else o ++ [(k, v)]

/-- Object spread `{...a, ...b}`: the properties of `b` written over a copy of `a`,
in order. -/
def jsSpread (a b : Obj) : Obj := b.foldl (fun acc e => jsSet acc e.1 e.2) a

/-- Property removal `delete o[k]`. -/
def jsDelete (o : Obj) (k : String) : Obj := o.filter (fun e => !decide (e.1 = k))

/-- JavaScript truthiness (`ToBoolean`) of a value read from JSON; `none` is
`undefined`. -/
def truthy : Option Json → Bool
  | none => false
  | some .null => false
  | some (.bool b) => b
  | some (.num n) => decide (n ≠ 0)
  | some (.str s) => decide (s ≠ "")
  | some (.arr _) => true
  | some (.obj _) => true

/-! ## `parseInt` -/

/-- White space and line terminators skipped by `parseInt`: tab, line feed,
vertical tab, form feed, carriage return, space, no-break space, the byte order
mark, the line and paragraph separators, and the other space separators of
Unicode (U+1680, U+2000 to U+200A, U+202F, U+205F, U+3000). -/
def isJsSpace (c : Char) : Bool :=
  c.toNat = 9 || c.toNat = 10 || c.toNat = 11 || c.toNat = 12 || c.toNat = 13 ||
  c.toNat = 32 || c.toNat = 160 || c.toNat = 5760 ||
  (8192 ≤ c.toNat && c.toNat ≤ 8202) || c.toNat = 8232 || c.toNat = 8233 ||
  c.toNat = 8239 || c.toNat = 8287 || c.toNat = 12288 || c.toNat = 65279

/-- Value of a digit character in a radix up to 16, if it is one. -/
def digitValue (radix : Nat) (c : Char) : Option Nat :=
  let n := c.toNat
  let d : Option Nat :=
    if 48 ≤ n ∧ n ≤ 57 then some (n - 48)
    else if 97 ≤ n ∧ n ≤ 102 then some (n - 87)
    else if 65 ≤ n ∧ n ≤ 70 then some (n - 55)
    else none
  match d with
  | some v => if v < radix then some v else none
  | none => none

/-- Reads the longest prefix of digits; `acc` is the value read so far, `none`
when no digit has been read yet. -/
def readDigits (radix : Nat) : List Char → Option Nat → Option Nat
  | [], acc => acc
  | c :: cs, acc =>
    match digitValue radix c with
    | some v => readDigits radix cs (some (acc.getD 0 * radix + v))
    | none => acc

/-- The numbers `parseInt` returns: `NaN`, an infinity, or a finite integer. -/
inductive JsNumber where
  | nan
  | infinity (negative : Bool)
  | finite (n : Int)
  deriving Repr, DecidableEq

/-- Number of binary digits of `n`; `fuel` bounds the recursion. -/
def bitLengthAux : Nat → Nat → Nat
  | 0, _ => 0
  | fuel + 1, n => if n = 0 then 0 else bitLengthAux fuel (n / 2) + 1

/-- Number of binary digits of `n`. -/
def bitLength (n : Nat) : Nat := bitLengthAux n n

/-- The double nearest to the natural number `n` (ties to the even mantissa of
53 bits); `none` when it is beyond the largest double, where the result is
`Infinity`. -/
def roundToDouble (n : Nat) : Option Nat :=
  if n < 2 ^ 53 then some n
  else
    let shift := bitLength n - 53
    let q := n / 2 ^ shift
    let r := n % 2 ^ shift
    let half := 2 ^ (shift - 1)
    let rounded := if half < r ∨ (r = half ∧ q % 2 = 1) then q + 1 else q
    if bitLength (rounded * 2 ^ shift) ≤ 1024 then some (rounded * 2 ^ shift) else none

/-- JavaScript `parseInt(s)` without a radix argument: leading white space is
skipped, a sign is read, a `0x` prefix selects radix 16, the longest prefix of
digits is read; a string with no digit there gives `NaN`, otherwise the result
is the integer read, rounded to a double. -/
def parseIntNumber (s : String) : JsNumber :=
  let cs := s.toList.dropWhile isJsSpace
  let signed : Bool × List Char :=
    match cs with
    | c :: rest => if c = '-' then (true, rest) else if c = '+' then (false, rest) else (false, cs)
    | [] => (false, cs)
  let based : Nat × List Char :=
    match signed.2 with
    | a :: b :: rest => if a = '0' ∧ (b = 'x' ∨ b = 'X') then (16, rest) else (10, signed.2)
    | _ => (10, signed.2)
  match readDigits based.1 based.2 none with
  | some v =>
    (match roundToDouble v with
      | some d => .finite (if signed.1 then -(d : Int) else (d : Int))
      | none => .infinity signed.1)
  | none => .nan

/-- The result of `parseInt(s)` when it is finite; `none` when it is `NaN` or an
infinity, which is equal to no number of the model. -/
def parseInt (s : String) : Option Int :=
  match parseIntNumber s with
  | .finite n => some n
  | _ => none

/-! ## Responses -/

/-- What a handler sends: the status code and the JSON body (`none` for an empty
body, as sent by `res.status(204).send()`). -/
structure Response where
  status : Nat
  body : Option Obj
  deriving Repr, DecidableEq

/-- The response `res.status(status).json(body)`. -/
def Response.json (status : Nat) (body : Obj) : Response := ⟨status, some body⟩

/-- Field `k` of the response body; `none` when the body is empty or has no such
field. -/
def Response.field (r : Response) (k : String) : Option Json :=
  match r.body with
  | some o => jsGet o k
  | none => none

/-- A success status (2xx). -/
def Response.isSuccess (r : Response) : Bool := decide (200 ≤ r.status ∧ r.status < 300)

/-- JavaScript `Array.prototype.findIndex`: the index of the first element that
satisfies `p`; `none` is the result `-1`. -/
def findIndex {α : Type} (p : α → Bool) : List α → Option Nat
  | [] => none
  | x :: xs => if p x then some 0 else (findIndex p xs).map (fun i => i + 1)

/-! ## Strings and route dispatch -/

/-- Lower case of the ASCII letters, other characters kept. It is the comparison
up to case of the route matcher (whose patterns are ASCII), the lower case of
hexadecimal digits, and the value of the method `toLowerCase` on ASCII
strings. -/
def asciiLower (s : String) : String := String.mk (s.toList.map Char.toLower)

/-- Upper case of the ASCII letters, other characters kept: the value of the
method `toUpperCase` on ASCII strings. -/
def asciiUpper (s : String) : String := String.mk (s.toList.map Char.toUpper)

/-- The method `toUpperCase` on the strings made of ASCII characters and of the
letter `ı` (dotless i, U+0131), whose upper-case form is `I`. Other characters
are kept, so on other strings this is not the method; it serves in the
examples. -/
def upperDotlessI (s : String) : String :=
  String.mk (s.toList.map (fun c => if c.toNat = 305 then 'I' else c.toUpper))

/-- What is assumed of the methods `toLowerCase` (`lower`) and `toUpperCase`
(`upper`) of the engine where a theorem needs it: lower-casing twice is
lower-casing once, and the conversions of a non-empty string are not empty. -/
structure CaseLaws (lower upper : String → String) : Prop where
  lower_lower : ∀ s, lower (lower s) = lower s
  lower_ne : ∀ s, s ≠ "" → lower s ≠ ""
  upper_ne : ∀ s, s ≠ "" → upper s ≠ ""

/-- The method `includes`: `t` occurs in `s` as a substring. -/
def includes (s t : String) : Bool := s.toList.tails.any (fun suffix => t.toList.isPrefixOf suffix)

/-- Splits the characters of a path at `/`; `cur` holds the segment being read,
reversed. Empty segments are dropped. -/
def splitSegments : List Char → List Char → List (List Char)
  | [], cur => if cur.isEmpty then [] else [cur.reverse]
  | c :: cs, cur =>
    if c = '/' then
      (if cur.isEmpty then splitSegments cs [] else cur.reverse :: splitSegments cs [])
    else splitSegments cs (c :: cur)

/-- The segments of a request path or of a route pattern. -/
def pathSegments (path : String) : List String := (splitSegments path.toList []).map String.mk

/-- Matches the segments of a route pattern against those of a path: a segment
`:name` of the pattern takes any segment of the path as the parameter `name`,
another segment has to be the same up to case. The result is the parameters. -/
def matchSegments : List String → List String → Option (List (String × String))
  | [], [] => some []
  | p :: ps, s :: ss =>
    match p.toList with
    | c :: name =>
      if c = ':' then (matchSegments ps ss).map (fun r => (String.mk name, s) :: r)
      else if asciiLower p = asciiLower s then matchSegments ps ss else none
    | [] => none
  | _, _ => none

/-- Request methods of the routes. -/
inductive Method where
  | GET | POST | PUT | DELETE
  deriving Repr, DecidableEq

/-- A registered route `app.METHOD(pattern, handler)`. -/
structure Route (H : Type) where
  method : Method
  pattern : String
  handler : H

/-- Express dispatch: the first route, in registration order, whose method and
pattern match; with the route parameters. -/
def dispatch {H : Type} : List (Route H) → Method → String → Option (H × List (String × String))
  | [], _, _ => none
  | r :: rs, m, path =>
    if r.method = m then
      match matchSegments (pathSegments r.pattern) (pathSegments path) with
      | some params => some (r.handler, params)
      | none => dispatch rs m path
    else dispatch rs m path

/-- A filter whose predicate can throw (`none`): the result is `none` as soon as
the predicate throws on an element. -/
def filterThrowing {α : Type} (p : α → Option Bool) : List α → Option (List α)
  | [] => some []
  | x :: xs =>
    match p x with
    | none => none
    | some keep =>
      match filterThrowing p xs with
      | none => none
      | some rest => some (if keep then x :: rest else rest)

/-- The properties of an object literal whose value is not `undefined`: what
`JSON.stringify` keeps. -/
def definedProps (ps : List (String × Option Json)) : Obj :=
  ps.filterMap (fun e => e.2.map (fun v => (e.1, v)))

/-! ## Day-17: in-memory users API (`Day-17/server.js`) -/

namespace Day17

/-- An element of the `users` array. The fields other than `id` hold whatever
JSON value the request body carried. -/
structure User where
  id : Int
  name : Json
  email : Json
  age : Json
  deriving Repr, DecidableEq

/-- The user as it is serialised by `res.json`. -/
def User.toJson (u : User) : Json :=
  .obj [("id", .num u.id), ("name", u.name), ("email", u.email), ("age", u.age)]

/-- The `users` array the server starts with. -/
def initialUsers : List User :=
  [ ⟨1, .str "John Doe", .str "john@example.com", .num 30⟩,
    ⟨2, .str "Jane Smith", .str "jane@example.com", .num 25⟩ ]

/-- The test `u.id === parseInt(req.params.id)`. -/
def matchesId (idParam : String) (u : User) : Bool := decide (some u.id = parseInt idParam)

/-- The 404 body shared by the user routes. -/
def userNotFound : Response :=
  .json 404 [("success", .bool false), ("message", .str "User not found")]

/-- Handler of `GET /api/health`; `now` is `new Date().toISOString()`. -/
def getHealth (now : String) : Response :=
  .json 200 [("success", .bool true), ("message", .str "API is healthy"),
    ("timestamp", .str now), ("version", .str "1.0.0")]

/-- Handler of `GET /api/users/:id`. -/
def getUser (users : List User) (idParam : String) : Response :=
  match users.find? (matchesId idParam) with
  | none => userNotFound
  | some u => .json 200 [("success", .bool true), ("data", u.toJson)]

/-- Handler of `POST /api/users`. -/
def postUser (users : List User) (body : Obj) : List User × Response :=
  let name := jsGet body "name"
  let email := jsGet body "email"
  let age := jsGet body "age"
  if !truthy name || !truthy email then
    (users, .json 400 [("success", .bool false), ("message", .str "Name and email are required")])
  else
    let newUser : User :=
      { id := (users.length : Int) + 1
        name := name.getD .null
        email := email.getD .null
        age := if truthy age then age.getD .null else .num 18 }
    (users ++ [newUser], .json 201 [("success", .bool true), ("data", newUser.toJson)])

/-- The assignments `if (name) user.name = name; if (email) user.email = email;
if (age) user.age = age;` of the PUT handler. -/
def applyUpdate (body : Obj) (u : User) : User :=
  let name := jsGet body "name"
  let email := jsGet body "email"
  let age := jsGet body "age"
  let u1 := if truthy name then { u with name := name.getD .null } else u
  let u2 := if truthy email then { u1 with email := email.getD .null } else u1
  if truthy age then { u2 with age := age.getD .null } else u2

/-- Handler of `PUT /api/users/:id`: the first user with the id is updated in
place. -/
def putUser (users : List User) (idParam : String) (body : Obj) : List User × Response :=
  match findIndex (matchesId idParam) users, users.find? (matchesId idParam) with
  | some i, some u =>
    let u' := applyUpdate body u
    (users.set i u', .json 200 [("success", .bool true), ("data", u'.toJson)])
  | _, _ => (users, userNotFound)

/-- Handler of `DELETE /api/users/:id`. -/
def deleteUser (users : List User) (idParam : String) : List User × Response :=
  match findIndex (matchesId idParam) users with
  | none => (users, userNotFound)
  | some i =>
    (users.eraseIdx i,
      .json 200 [("success", .bool true), ("message", .str "User deleted successfully")])

/-- An element of the `posts` array. -/
structure Post where
  id : Int
  title : Json
  content : Json
  userId : Json
  deriving Repr, DecidableEq

/-- The post as it is serialised by `res.json`. -/
def Post.toJson (p : Post) : Json :=
  .obj [("id", .num p.id), ("title", p.title), ("content", p.content), ("userId", p.userId)]

/-- The `posts` array the server starts with. -/
def initialPosts : List Post :=
  [ ⟨1, .str "First Post", .str "This is the first post", .num 1⟩,
    ⟨2, .str "Second Post", .str "This is the second post", .num 2⟩ ]

/-- Handler of `GET /api/users`. -/
def getUsers (users : List User) : Response :=
  .json 200 [("success", .bool true), ("count", .num users.length),
    ("data", .arr (users.map User.toJson))]

/-- Handler of `GET /api/posts`. -/
def getPosts (posts : List Post) : Response :=
  .json 200 [("success", .bool true), ("count", .num posts.length),
    ("data", .arr (posts.map Post.toJson))]

/-- Handler of `GET /api/posts/:id`. -/
def getPost (posts : List Post) (idParam : String) : Response :=
  match posts.find? (fun p => decide (some p.id = parseInt idParam)) with
  | none => .json 404 [("success", .bool false), ("message", .str "Post not found")]
  | some p => .json 200 [("success", .bool true), ("data", p.toJson)]

/-- Handler of `POST /api/posts`. -/
def postPost (posts : List Post) (body : Obj) : List Post × Response :=
  let title := jsGet body "title"
  let content := jsGet body "content"
  let userId := jsGet body "userId"
  if !truthy title || !truthy content then
    (posts, .json 400 [("success", .bool false),
      ("message", .str "Title and content are required")])
  else
    let newPost : Post :=
      { id := (posts.length : Int) + 1
        title := title.getD .null
        content := content.getD .null
        userId := if truthy userId then userId.getD .null else .num 1 }
    (posts ++ [newPost], .json 201 [("success", .bool true), ("data", newPost.toJson)])

/-- The 404 handler for a request that no route matches. -/
def routeNotFound (originalUrl : String) : Response :=
  .json 404 [("success", .bool false), ("message", .str ("Route " ++ originalUrl ++ " not found"))]

/-- The error handler, reached when a handler throws an error with message
`errMessage`; `nodeEnv` is `NODE_ENV`. -/
def errorHandler (errMessage nodeEnv : String) : Response :=
  .json 500 [("success", .bool false), ("message", .str "Something went wrong!"),
    ("error", if nodeEnv = "development" then .str errMessage else .obj [])]

/-- The test `a.toLowerCase().includes(q.toLowerCase()) ||
b.toLowerCase().includes(q.toLowerCase())` of the search on two fields; `lower`
is the method `toLowerCase`. It throws (`none`) when a field that is read is not
a string. -/
def eitherIncludes (lower : String → String) (a b : Json) (q : String) : Option Bool :=
  match a with
  | .str s =>
    if includes (lower s) (lower q) then some true
    else
      match b with
      | .str t => some (includes (lower t) (lower q))
      | _ => none
  | _ => none

/-- The `results` array of the search handler; `none` when a filter throws. -/
def searchResults (lower : String → String) (users : List User) (posts : List Post)
    (q : String) (type : Option String) : Option (List Json) :=
  let wanted (kind : String) : Bool :=
    match type with
    | none => true
    | some t => decide (t = "") || decide (t = kind)
  let userPart : Option (List Json) :=
    if wanted "users" then
      (filterThrowing (fun u => eitherIncludes lower u.name u.email q) users).map (fun l =>
        l.map (fun u => Json.obj [("type", .str "user"), ("data", u.toJson)]))
    else some []
  let postPart : Option (List Json) :=
    if wanted "posts" then
      (filterThrowing (fun p => eitherIncludes lower p.title p.content q) posts).map (fun l =>
        l.map (fun p => Json.obj [("type", .str "post"), ("data", p.toJson)]))
    else some []
  match userPart, postPart with
  | some us, some ps => some (us ++ ps)
  | _, _ => none

/-- Handler of `GET /api/search`; `lower` is the method `toLowerCase`. A filter
that throws ends in the error handler (`errMessage` is the message of the error
thrown, `nodeEnv` is `NODE_ENV`). -/
def search (lower : String → String) (users : List User) (posts : List Post)
    (q type : Option String) (errMessage nodeEnv : String) : Response :=
  match q with
  | none => .json 400 [("success", .bool false), ("message", .str "Search query is required")]
  | some query =>
    if query = "" then
      .json 400 [("success", .bool false), ("message", .str "Search query is required")]
    else
      match searchResults lower users posts query type with
      | none => errorHandler errMessage nodeEnv
      | some results =>
        .json 200 [("success", .bool true), ("query", .str query),
          ("count", .num results.length), ("data", .arr results)]

/-- Spec of the search: the text `s` contains `q` ignoring case, that is, the
lower-case form of `s` contains the lower-case form of `q`. -/
def specContainsIgnoringCase (lower : String → String) (s q : String) : Bool :=
  includes (lower s) (lower q)

/-- Spec of the search: the users whose name or email contains `q` ignoring
case, in store order. -/
def specMatchingUsers (lower : String → String) (users : List User) (q : String) : List User :=
  users.filter (fun u =>
    match u.name, u.email with
    | .str name, .str email =>
      specContainsIgnoringCase lower name q || specContainsIgnoringCase lower email q
    | _, _ => false)

/-- Spec of the search: the posts whose title or content contains `q` ignoring
case, in store order. -/
def specMatchingPosts (lower : String → String) (posts : List Post) (q : String) : List Post :=
  posts.filter (fun p =>
    match p.title, p.content with
    | .str title, .str content =>
      specContainsIgnoringCase lower title q || specContainsIgnoringCase lower content q
    | _, _ => false)

/-- Spec of the search: the matching users, each wrapped with type `user`, when
the type is absent (or empty) or `users`, followed by the matching posts, each
wrapped with type `post`, when the type is absent (or empty) or `posts`. -/
def specSearchData (lower : String → String) (users : List User) (posts : List Post)
    (q : String) (type : Option String) : List Json :=
  (if type = none ∨ type = some "" ∨ type = some "users" then
      (specMatchingUsers lower users q).map
        (fun u => Json.obj [("type", .str "user"), ("data", u.toJson)])
    else []) ++
  (if type = none ∨ type = some "" ∨ type = some "posts" then
      (specMatchingPosts lower posts q).map
        (fun p => Json.obj [("type", .str "post"), ("data", p.toJson)])
    else [])

/-- The stores the server can be in: the initial one and what POST, PUT and
DELETE requests on `/api/users` make of a reachable one. -/
inductive Reachable : List User → Prop
  | init : Reachable initialUsers
  | post (users : List User) (body : Obj) : Reachable users → Reachable (postUser users body).1
  | put (users : List User) (idParam : String) (body : Obj) :
      Reachable users → Reachable (putUser users idParam body).1
  | delete (users : List User) (idParam : String) :
      Reachable users → Reachable (deleteUser users idParam).1

end Day17

/-! ## Day-8: projects and experience API over constant arrays (`Day-8/server.js`) -/

namespace Day8

/-- The array `projects` of the server. -/
def projects : List Obj :=
  [
    [ ("id", .num 1),
      ("title", .str "Full-Stack E-Commerce Platform"),
      ("description",
        .str "A complete e-commerce solution with user authentication, product catalog, shopping cart, and payment processing."),
      ("technologies", .arr [.str "React", .str "Node.js", .str "Express", .str "MongoDB",
        .str "Stripe API"]),
      ("githubUrl", .str "https://github.com/aldrinmanon/ecommerce-platform"),
      ("liveUrl", .str "https://ecommerce-demo.aldrinmanon.dev"),
      ("featured", .bool true),
      ("completionDate", .str "2024-03-15"),
      ("category", .str "fullstack") ],
    [ ("id", .num 2),
      ("title", .str "Real-Time Chat Application"),
      ("description",
        .str "A modern chat application with real-time messaging, user presence, and group chat functionality."),
      ("technologies", .arr [.str "React", .str "Socket.io", .str "Node.js", .str "Express",
        .str "PostgreSQL"]),
      ("githubUrl", .str "https://github.com/aldrinmanon/chat-app"),
      ("liveUrl", .str "https://chat.aldrinmanon.dev"),
      ("featured", .bool true),
      ("completionDate", .str "2024-01-20"),
      ("category", .str "realtime") ],
    [ ("id", .num 3),
      ("title", .str "Task Management Dashboard"),
      ("description",
        .str "A collaborative project management tool with drag-and-drop kanban boards and team collaboration features."),
      ("technologies", .arr [.str "Vue.js", .str "Node.js", .str "Express", .str "MySQL", .str "Docker"]),
      ("githubUrl", .str "https://github.com/aldrinmanon/task-manager"),
      ("liveUrl", .str "https://tasks.aldrinmanon.dev"),
      ("featured", .bool false),
      ("completionDate", .str "2023-11-10"),
      ("category", .str "productivity") ],
    [ ("id", .num 4),
      ("title", .str "Weather Analytics Platform"),
      ("description",
        .str "A data visualization platform that aggregates weather data from multiple APIs and provides insights."),
      ("technologies", .arr [.str "React", .str "D3.js", .str "Node.js", .str "Express", .str "MongoDB"]),
      ("githubUrl", .str "https://github.com/aldrinmanon/weather-analytics"),
      ("liveUrl", .str "https://weather.aldrinmanon.dev"),
      ("featured", .bool false),
      ("completionDate", .str "2023-09-05"),
      ("category", .str "data") ],
    [ ("id", .num 5),
      ("title", .str "Personal Finance Tracker"),
      ("description",
        .str "A mobile-first web application for tracking expenses, budgeting, and financial goal setting."),
      ("technologies", .arr [.str "React", .str "Node.js", .str "Express", .str "SQLite",
        .str "Chart.js"]),
      ("githubUrl", .str "https://github.com/aldrinmanon/finance-tracker"),
      ("liveUrl", .str "https://finance.aldrinmanon.dev"),
      ("featured", .bool true),
      ("completionDate", .str "2023-07-18"),
      ("category", .str "finance") ] ]

/-- The array `workExperience` of the server. -/
def workExperience : List Obj :=
  [
    [ ("id", .num 1),
      ("company", .str "Tech Innovations Inc."),
      ("position", .str "Senior Full Stack Developer"),
      ("duration", .str "2022 - Present"),
      ("location", .str "San Francisco, CA"),
      ("type", .str "Full-time"),
      ("description",
        .str "Lead development of scalable web applications serving 100K+ users. Architected microservices infrastructure and mentored junior developers."),
      ("achievements", .arr [.str "Improved application performance by 40% through code optimization",
        .str "Led migration from monolithic to microservices architecture",
        .str "Mentored 5 junior developers and established coding standards"]),
      ("technologies", .arr [.str "React", .str "Node.js", .str "AWS", .str "Docker", .str "Kubernetes",
        .str "MongoDB"]),
      ("current", .bool true) ],
    [ ("id", .num 2),
      ("company", .str "Digital Solutions Corp"),
      ("position", .str "Full Stack Developer"),
      ("duration", .str "2020 - 2022"),
      ("location", .str "New York, NY"),
      ("type", .str "Full-time"),
      ("description",
        .str "Developed and maintained multiple client projects using modern web technologies. Collaborated with cross-functional teams in agile environment."),
      ("achievements", .arr [.str "Delivered 15+ client projects on time and within budget",
        .str "Implemented CI/CD pipelines reducing deployment time by 60%",
        .str "Established automated testing practices improving code quality"]),
      ("technologies", .arr [.str "Vue.js", .str "Node.js", .str "PostgreSQL", .str "Jenkins",
        .str "Jest"]),
      ("current", .bool false) ],
    [ ("id", .num 3),
      ("company", .str "StartupXYZ"),
      ("position", .str "Junior Web Developer"),
      ("duration", .str "2019 - 2020"),
      ("location", .str "Austin, TX"),
      ("type", .str "Full-time"),
      ("description",
        .str "Built responsive web applications and contributed to the growth of a fast-paced startup environment."),
      ("achievements", .arr [.str "Developed 10+ responsive web applications",
        .str "Contributed to 200% user growth through improved UX",
        .str "Implemented responsive design patterns"]),
      ("technologies", .arr [.str "HTML", .str "CSS", .str "JavaScript", .str "PHP", .str "MySQL"]),
      ("current", .bool false) ] ]

/-- The global error handler, reached when a handler throws; `now` is
`new Date().toISOString()`. -/
def serverError (now : String) : Response :=
  .json 500 [("success", .bool false), ("error", .str "Internal Server Error"),
    ("message", .str "Something went wrong on the server"), ("timestamp", .str now)]

/-- The 404 handler for a request that no route matches. -/
def routeNotFound (method path now : String) : Response :=
  .json 404 [("success", .bool false), ("error", .str "Route not found"),
    ("message", .str ("The path \x27" ++ path ++ "\x27 does not exist on this server.")),
    ("method", .str method),
    ("availableRoutes", .arr [.str "GET /", .str "GET /api/projects",
      .str "GET /api/projects/:id", .str "GET /api/experience", .str "GET /api/experience/:id",
      .str "GET /health", .str "GET /info"]),
    ("timestamp", .str now)]

/-- The number of elements the `limit` parameter keeps: `parseInt(limit)` when
the parameter is given, not empty, and parses to a positive number. For the
result `Infinity` the handler keeps every element, as it does without a
limit. -/
def limitOf (limit : Option String) : Option Nat :=
  match limit with
  | some l =>
    if l ≠ "" then
      match parseInt l with
      | some n => if 0 < n then some n.toNat else none
      | none => none
    else none
  | none => none

/-- The test `item[k].toLowerCase().includes(needle.toLowerCase())`; `lower` is
the method `toLowerCase`. It throws (`none`) when the field is not a string. -/
def fieldContains (lower : String → String) (k : String) (needle : String) (item : Obj) :
    Option Bool :=
  match jsGet item k with
  | some (.str s) => some (includes (lower s) (lower needle))
  | _ => none

/-- The list handlers `GET /api/projects` (`flag = "featured"`,
`textField = "category"`) and `GET /api/experience` (`flag = "current"`,
`textField = "company"`): `flagParam` filters on the boolean field, `text` on the
text field, `limit` cuts the result; `lower` is the method `toLowerCase`. A
filter that throws ends in the global error handler. -/
def listItems (lower : String → String) (items : List Obj) (flag textField : String)
    (flagParam text limit : Option String) (now : String) : Response :=
  let afterFlag : List Obj :=
    match flagParam with
    | some f =>
      items.filter (fun item =>
        decide (jsGet item flag = some (.bool (decide (lower f = "true")))))
    | none => items
  let afterText : Option (List Obj) :=
    match text with
    | some c =>
      if c ≠ "" then filterThrowing (fieldContains lower textField c) afterFlag
      else some afterFlag
    | none => some afterFlag
  match afterText with
  | none => serverError now
  | some filtered =>
    let limited := match limitOf limit with
      | some n => filtered.take n
      | none => filtered
    .json 200 [("success", .bool true), ("count", .num limited.length),
      ("total", .num items.length), ("data", .arr (limited.map Json.obj)),
      ("filters", .obj (definedProps [(flag, flagParam.map Json.str),
        (textField, text.map Json.str), ("limit", limit.map Json.str)]))]

/-- Handler of `GET /api/projects`. -/
def getProjects (lower : String → String) (projects : List Obj)
    (featured category limit : Option String) (now : String) : Response :=
  listItems lower projects "featured" "category" featured category limit now

/-- Handler of `GET /api/experience`. -/
def getExperiences (lower : String → String) (workExperience : List Obj)
    (current company limit : Option String) (now : String) : Response :=
  listItems lower workExperience "current" "company" current company limit now

/-- The handlers `GET /api/projects/:id` and `GET /api/experience/:id`;
`invalidMsg` and `missingMsg` are their two error texts. Only `NaN` is an
invalid id; an infinity is the id of no item and is serialised as `null`. -/
def getItem (items : List Obj) (invalidMsg missingMsg : String) (idParam : String) : Response :=
  match parseIntNumber idParam with
  | .nan =>
    .json 400 [("success", .bool false), ("error", .str invalidMsg), ("received", .str idParam)]
  | .infinity _ =>
    .json 404 [("success", .bool false), ("error", .str missingMsg), ("requestedId", .null),
      ("availableIds", .arr (items.map (fun item => (jsGet item "id").getD .null)))]
  | .finite n =>
    match items.find? (fun item => decide (jsGet item "id" = some (.num n))) with
    | none =>
      .json 404 [("success", .bool false), ("error", .str missingMsg), ("requestedId", .num n),
        ("availableIds", .arr (items.map (fun item => (jsGet item "id").getD .null)))]
    | some item => .json 200 [("success", .bool true), ("data", .obj item)]

/-- Handler of `GET /api/projects/:id`. -/
def getProject (projects : List Obj) (idParam : String) : Response :=
  getItem projects "Invalid project ID format. Must be a number." "Project not found" idParam

/-- Handler of `GET /api/experience/:id`. -/
def getExperienceById (workExperience : List Obj) (idParam : String) : Response :=
  getItem workExperience "Invalid experience ID format. Must be a number."
    "Work experience not found" idParam

/-- Spec of the project filter, featured test: the featured flag equals
(`featured` is `true` ignoring case, that is, its lower-case form is `true`)
when `featured` is given. -/
def specFeaturedOk (lower : String → String) (featured : Option String) (p : Obj) : Bool :=
  match featured with
  | some f => decide (jsGet p "featured" = some (.bool (decide (lower f = "true"))))
  | none => true

/-- Spec of the project filter, category test: the category contains `category`
ignoring case (the lower-case form of the one contains that of the other) when
`category` is given. -/
def specCategoryOk (lower : String → String) (category : Option String) (p : Obj) : Bool :=
  match category with
  | some c =>
    (match jsGet p "category" with
      | some (.str s) => includes (lower s) (lower c)
      | _ => false)
  | none => true

/-- Spec of the project filter: the projects that pass the featured test and the
category test, in the order of the array. -/
def specFilteredProjects (lower : String → String) (projects : List Obj)
    (featured category : Option String) : List Obj :=
  projects.filter (fun p => specFeaturedOk lower featured p && specCategoryOk lower category p)

/-- Spec of the limit: the first `n` elements when `limit` parses to a positive
integer `n`, the whole list otherwise. -/
def specCut (limit : Option String) (l : List Obj) : List Obj :=
  match limit.bind parseInt with
  | some n => if 0 < n then l.take n.toNat else l
  | none => l

end Day8

/-! ## Day-10 and Day-11: projects API over a MongoDB collection
(`Day-10/server.js`, `Day-11/server.js`)

The collection `projects` is the list of its documents. An `ObjectId` is written
as the object `{ "$oid": hex }`. A call of the driver that rejects is the
argument `dbFails`; the handler then ends in its `catch` branch. -/

namespace Mongo

/-- An `ObjectId` inside a document. -/
def oid (hex : String) : Json := .obj [("$oid", .str hex)]

/-- Equality match of a query `{ k: x }` on one document: the field is `x`, or is
an array with the element `x`. -/
def fieldMatches (k : String) (x : Json) (doc : Obj) : Bool :=
  match jsGet doc k with
  | some (.arr xs) => decide (Json.arr xs = x) || xs.contains x
  | some v => decide (v = x)
  | none => false

/-- The call `find(filter).toArray()` for a filter of equality conditions. -/
def find (filter : Obj) (coll : List Obj) : List Obj :=
  coll.filter (fun doc => filter.all (fun cond => fieldMatches cond.1 cond.2 doc))

/-- Hexadecimal digit. -/
def isHexDigit (c : Char) : Bool :=
  (48 ≤ c.toNat && c.toNat ≤ 57) || (97 ≤ c.toNat && c.toNat ≤ 102) ||
    (65 ≤ c.toNat && c.toNat ≤ 70)

/-- The constructor `new ObjectId(s)` on a string of 24 hexadecimal digits, the
form every version of the driver accepts; `none` is the error it throws. -/
def objectIdOfHex (s : String) : Option String :=
  if s.length = 24 ∧ s.toList.all isHexDigit then some (asciiLower s) else none

end Mongo

namespace Day10

/-- The global error handler. -/
def serverError (now : String) : Response := Day8.serverError now

/-- The 404 handler for a request that no route matches. -/
def routeNotFound (method path now : String) : Response :=
  .json 404 [("success", .bool false), ("error", .str "Route not found"),
    ("message", .str ("The path \x27" ++ path ++ "\x27 does not exist on this server.")),
    ("method", .str method),
    ("availableRoutes", .arr [.str "GET /", .str "GET /api/projects",
      .str "POST /api/projects", .str "GET /health", .str "GET /info"]),
    ("timestamp", .str now)]

/-- The filter object of the list handler; `lower` is the method `toLowerCase`. -/
def listFilter (lower : String → String) (featured category : Option String) : Obj :=
  definedProps [("featured", featured.map (fun f => .bool (decide (lower f = "true")))),
    ("category", match category with
      | some c => if c ≠ "" then some (.str c) else none
      | none => none)]

/-- Handler of `GET /api/projects`, the same in Day-10 and Day-11; `lower` is
the method `toLowerCase`. -/
def getProjects (lower : String → String) (coll : List Obj) (dbFails : Bool)
    (featured category limit : Option String) : Response :=
  if dbFails then
    .json 500 [("success", .bool false), ("error", .str "Failed to retrieve projects")]
  else
    let projects := Mongo.find (listFilter lower featured category) coll
    let limited := match Day8.limitOf limit with
      | some n => projects.take n
      | none => projects
    .json 200 [("success", .bool true), ("count", .num limited.length),
      ("total", .num projects.length), ("data", .arr (limited.map Json.obj)),
      ("filters", .obj (definedProps [("featured", featured.map Json.str),
        ("category", category.map Json.str), ("limit", limit.map Json.str)]))]

/-- Handler of `POST /api/projects`, the same in Day-10 and Day-11; `now` is
`new Date()` and `freshId` the `ObjectId` the driver generates for a document
without `_id`. An `_id` that is already in the collection makes `insertOne`
reject. -/
def postProject (coll : List Obj) (dbFails : Bool) (body : Obj) (now freshId : String) :
    List Obj × Response :=
  if !truthy (jsGet body "title") || !truthy (jsGet body "description") then
    (coll, .json 400 [("success", .bool false),
      ("error", .str "Title and description are required fields")])
  else
    let projectData := jsSet (jsSet body "createdAt" (.str now)) "updatedAt" (.str now)
    let insertedId := (jsGet projectData "_id").getD (Mongo.oid freshId)
    if dbFails || coll.any (fun doc => decide (jsGet doc "_id" = some insertedId)) then
      (coll, .json 500 [("success", .bool false), ("error", .str "Failed to create project")])
    else
      let stored := jsSet projectData "_id" insertedId
      (coll ++ [stored],
        .json 201 [("success", .bool true), ("message", .str "Project created successfully"),
          ("data", .obj (jsSpread [("_id", insertedId)] stored))])

end Day10

namespace Day11

/-- The global error handler. -/
def serverError (now : String) : Response := Day8.serverError now

/-- The 404 handler for a request that no route matches. -/
def routeNotFound (method path now : String) : Response :=
  .json 404 [("success", .bool false), ("error", .str "Route not found"),
    ("message", .str ("The path \x27" ++ path ++ "\x27 does not exist on this server.")),
    ("method", .str method),
    ("availableRoutes", .arr [.str "GET /", .str "GET /api/projects",
      .str "POST /api/projects", .str "PUT /api/projects/:id", .str "DELETE /api/projects/:id",
      .str "GET /health", .str "GET /info"]),
    ("timestamp", .str now)]

/-- Handler of `GET /api/projects`. -/
def getProjects (lower : String → String) (coll : List Obj) (dbFails : Bool)
    (featured category limit : Option String) : Response :=
  Day10.getProjects lower coll dbFails featured category limit

/-- Handler of `POST /api/projects`. -/
def postProject (coll : List Obj) (dbFails : Bool) (body : Obj) (now freshId : String) :
    List Obj × Response :=
  Day10.postProject coll dbFails body now freshId

/-- The response to an id that `new ObjectId` rejects. -/
def invalidId : Response :=
  .json 400 [("success", .bool false), ("error", .str "Invalid project ID format")]

/-- The response when no document has the id. -/
def projectNotFound : Response :=
  .json 404 [("success", .bool false), ("error", .str "Project not found")]

/-- Handler of `PUT /api/projects/:id`; `toObjectId` is `new ObjectId`, `none`
when it throws; `now` is `new Date()`. `updateOne` with `$set` writes the fields
of the body over the first document with the id; it rejects when the body
would change `_id`. -/
def putProject (toObjectId : String → Option String) (coll : List Obj) (dbFails : Bool)
    (idParam : String) (body : Obj) (now : String) : List Obj × Response :=
  match toObjectId idParam with
  | none => (coll, invalidId)
  | some hex =>
    let updateData := jsSet body "updatedAt" (.str now)
    let failed : List Obj × Response :=
      (coll, .json 500 [("success", .bool false), ("error", .str "Failed to update project")])
    if dbFails then failed
    else
      match findIndex (fun doc => decide (jsGet doc "_id" = some (Mongo.oid hex))) coll with
      | none => (coll, projectNotFound)
      | some i =>
        let old := coll.getD i []
        let new := jsSpread old updateData
        if jsGet new "_id" ≠ jsGet old "_id" then failed
        else
          (coll.set i new,
            .json 200 [("success", .bool true), ("message", .str "Project updated successfully"),
              ("modifiedCount", .num (if new = old then 0 else 1)), ("matchedCount", .num 1)])

/-- Handler of `DELETE /api/projects/:id`; `toObjectId` is `new ObjectId`, `none`
when it throws. -/
def deleteProject (toObjectId : String → Option String) (coll : List Obj) (dbFails : Bool)
    (idParam : String) : List Obj × Response :=
  match toObjectId idParam with
  | none => (coll, invalidId)
  | some hex =>
    if dbFails then
      (coll, .json 500 [("success", .bool false), ("error", .str "Failed to delete project")])
    else
      match findIndex (fun doc => decide (jsGet doc "_id" = some (Mongo.oid hex))) coll with
      | none => (coll, projectNotFound)
      | some i => (coll.eraseIdx i, ⟨204, none⟩)

/-- A collection of two documents, for the examples. -/
def sampleCollection : List Obj :=
  [ [("_id", Mongo.oid "aaaaaaaaaaaaaaaaaaaaaaaa"), ("title", .str "One")],
    [("_id", Mongo.oid "0123456789abcdef01234567"), ("title", .str "Two")] ]

end Day11

/-! ## Day-23: projects API over a constant array (`Day-23/server.js`) -/

namespace Day23

/-- The array `mockProjects` of the server. -/
def mockProjects : List Obj :=
  [
    [ ("id", .num 1),
      ("title", .str "React Portfolio Website"),
      ("description",
        .str "A responsive portfolio website built with React.js, featuring modern UI/UX design and smooth animations."),
      ("technologies", .arr [.str "React", .str "CSS", .str "JavaScript"]),
      ("category", .str "frontend"),
      ("featured", .bool true),
      ("githubUrl", .str "https://github.com/example/portfolio"),
      ("liveUrl", .str "https://portfolio-example.com") ],
    [ ("id", .num 2),
      ("title", .str "Node.js REST API"),
      ("description",
        .str "A comprehensive REST API built with Node.js and Express, including authentication, error handling, and database integration."),
      ("technologies", .arr [.str "Node.js", .str "Express", .str "MongoDB", .str "JWT"]),
      ("category", .str "backend"),
      ("featured", .bool true),
      ("githubUrl", .str "https://github.com/example/api-server"),
      ("liveUrl", .null) ],
    [ ("id", .num 3),
      ("title", .str "E-commerce Dashboard"),
      ("description",
        .str "An admin dashboard for an e-commerce platform with analytics, inventory management, and order tracking."),
      ("technologies", .arr [.str "React", .str "Redux", .str "Node.js", .str "PostgreSQL"]),
      ("category", .str "fullstack"),
      ("featured", .bool false),
      ("githubUrl", .str "https://github.com/example/dashboard"),
      ("liveUrl", .str "https://dashboard-example.com") ],
    [ ("id", .num 4),
      ("title", .str "Weather PWA"),
      ("description",
        .str "A Progressive Web App that provides weather forecasts with offline functionality and location services."),
      ("technologies", .arr [.str "JavaScript", .str "PWA", .str "Service Workers"]),
      ("category", .str "frontend"),
      ("featured", .bool true),
      ("githubUrl", .str "https://github.com/example/weather-pwa"),
      ("liveUrl", .str "https://weather-pwa-example.com") ],
    [ ("id", .num 5),
      ("title", .str "Task Management Tool"),
      ("description",
        .str "A collaborative task management application with real-time updates, user authentication, and team collaboration features."),
      ("technologies", .arr [.str "React", .str "Firebase", .str "Material-UI", .str "Socket.io"]),
      ("category", .str "fullstack"),
      ("featured", .bool false),
      ("githubUrl", .str "https://github.com/example/task-manager"),
      ("liveUrl", .str "https://task-manager-example.com") ],
    [ ("id", .num 6),
      ("title", .str "Data Visualization Dashboard"),
      ("description",
        .str "Interactive data visualization dashboard with charts, graphs, and real-time data updates using modern libraries."),
      ("technologies", .arr [.str "D3.js", .str "React", .str "WebSocket"]),
      ("category", .str "frontend"),
      ("featured", .bool false),
      ("githubUrl", .str "https://github.com/example/data-viz"),
      ("liveUrl", .str "https://data-viz-example.com") ] ]

/-- Handler of `GET /api/projects`: the whole array, sent from a timer. -/
def getProjects (mockProjects : List Obj) : Response :=
  .json 200 [("success", .bool true), ("count", .num mockProjects.length),
    ("total", .num mockProjects.length), ("data", .arr (mockProjects.map Json.obj))]

/-- The `catch` branch of the handler. -/
def getProjectsFailed : Response :=
  .json 500 [("success", .bool false), ("error", .str "Failed to retrieve projects")]

end Day23

/-! ## Day-25: work-experience API (`Day-25/work-experience-api-server.js`) -/

namespace Day25

/-- The array `mockWorkExperience` the server starts with. -/
def mockWorkExperience : List Obj :=
  [
    [ ("id", .num 1),
      ("company", .str "Google"),
      ("position", .str "Senior Frontend Developer"),
      ("startDate", .str "2022-03-15"),
      ("endDate", .str "2024-08-31"),
      ("location", .str "Mountain View, CA"),
      ("isCurrent", .bool false),
      ("description",
        .str "Led development of modern React applications serving millions of users. Mentored junior developers and established best practices for the team."),
      ("achievements",
        .arr [.str "Improved performance by 40% through code optimization and lazy loading",
        .str "Mentored 5 junior developers who were promoted within 6 months",
        .str "Led migration from legacy React 16 to React 18 with zero downtime"]),
      ("technologies", .arr [.str "React", .str "TypeScript", .str "Node.js", .str "GraphQL", .str "AWS",
        .str "Docker"]),
      ("companySize", .str "100,000+"),
      ("industry", .str "Technology"),
      ("website", .str "https://google.com"),
      ("createdAt", .str "2024-09-01T00:00:00.000Z"),
      ("updatedAt", .str "2024-09-01T00:00:00.000Z") ],
    [ ("id", .num 2),
      ("company", .str "Microsoft"),
      ("position", .str "Software Engineer"),
      ("startDate", .str "2020-06-01"),
      ("endDate", .null),
      ("location", .str "Seattle, WA"),
      ("isCurrent", .bool true),
      ("description",
        .str "Working on Azure cloud services team, focusing on React-based admin dashboards and API integrations. Part of the team that handles millions of daily requests."),
      ("achievements", .arr [.str "Developed new dashboard UI serving 2M+ daily active users",
        .str "Reduced API response time by 30% through optimization",
        .str "Implemented automated testing that increased code coverage to 95%"]),
      ("technologies", .arr [.str "React", .str "Azure DevOps", .str "TypeScript", .str "PostgreSQL",
        .str ".NET Core"]),
      ("companySize", .str "150,000+"),
      ("industry", .str "Technology"),
      ("website", .str "https://microsoft.com"),
      ("createdAt", .str "2024-09-01T00:00:00.000Z"),
      ("updatedAt", .str "2024-09-01T00:00:00.000Z") ],
    [ ("id", .num 3),
      ("company", .str "Amazon Web Services"),
      ("position", .str "Full Stack Developer"),
      ("startDate", .str "2018-09-01"),
      ("endDate", .str "2019-12-15"),
      ("location", .str "Arlington, VA"),
      ("isCurrent", .bool false),
      ("description",
        .str "Part of the EC2 service team building internal management tools and monitoring dashboards. Worked closely with DevOps teams to improve deployment processes."),
      ("achievements", .arr [.str "Built monitoring dashboard that reduced incident response time by 50%",
        .str "Automated deployment pipeline reducing deployment errors by 80%",
        .str "Presented at internal tech conference about React best practices"]),
      ("technologies", .arr [.str "React", .str "Python", .str "Flask", .str "AWS", .str "DynamoDB",
        .str "Kubernetes"]),
      ("companySize", .str "1,500,000+"),
      ("industry", .str "Cloud Computing"),
      ("website", .str "https://aws.amazon.com"),
      ("createdAt", .str "2024-09-01T00:00:00.000Z"),
      ("updatedAt", .str "2024-09-01T00:00:00.000Z") ],
    [ ("id", .num 4),
      ("company", .str "Netflix"),
      ("position", .str "Frontend Engineer"),
      ("startDate", .str "2017-02-01"),
      ("endDate", .str "2018-05-30"),
      ("location", .str "Los Gatos, CA"),
      ("isCurrent", .bool false),
      ("description",
        .str "Joined the streaming UI team working on user experience improvements and new feature development for the global platform serving 120M+ subscribers."),
      ("achievements", .arr [.str "Implemented offline viewing feature that increased user retention",
        .str "Optimized video player component reducing crashes by 25%",
        .str "Collaborated with UX designers to improve accessibility compliance"]),
      ("technologies", .arr [.str "React", .str "JavaScript", .str "SCSS", .str "Jest", .str "Enzyme",
        .str "A/B Testing"]),
      ("companySize", .str "10,000+"),
      ("industry", .str "Entertainment"),
      ("website", .str "https://netflix.com"),
      ("createdAt", .str "2024-09-01T00:00:00.000Z"),
      ("updatedAt", .str "2024-09-01T00:00:00.000Z") ],
    [ ("id", .num 5),
      ("company", .str "Airbnb"),
      ("position", .str "Product Engineer"),
      ("startDate", .str "2016-07-15"),
      ("endDate", .str "2016-11-30"),
      ("location", .str "San Francisco, CA"),
      ("isCurrent", .bool false),
      ("description",
        .str "Contract position working on the host experience team. Redesigned booking management interface and improved data visualization for hosts."),
      ("achievements", .arr [.str "Redesigned booking dashboard that increased host satisfaction by 25%",
        .str "Built data visualization tools that improved insight accuracy by 35%",
        .str "Mentored interns on React component architecture"]),
      ("technologies", .arr [.str "React", .str "Redux", .str "Sass", .str "D3.js", .str "Node.js",
        .str "MongoDB"]),
      ("companySize", .str "5,000+"),
      ("industry", .str "Travel & Tourism"),
      ("website", .str "https://airbnb.com"),
      ("createdAt", .str "2024-09-01T00:00:00.000Z"),
      ("updatedAt", .str "2024-09-01T00:00:00.000Z") ],
    [ ("id", .num 6),
      ("company", .str "StartupXYZ"),
      ("position", .str "Lead Developer"),
      ("startDate", .str "2015-03-01"),
      ("endDate", .str "2016-01-15"),
      ("location", .str "Austin, TX"),
      ("isCurrent", .bool false),
      ("description",
        .str "Early employee at a fintech startup that was acquired. Built the entire frontend from scratch and established development processes."),
      ("achievements", .arr [.str "Built complete React application from scratch (50k+ lines of code)",
        .str "Established CI/CD pipeline and testing infrastructure",
        .str "Led successful product launch with zero downtime in first 6 months"]),
      ("technologies", .arr [.str "React", .str "JavaScript", .str "Webpack", .str "Jest",
        .str "PostgreSQL", .str "Stripe API"]),
      ("companySize", .str "50-100"),
      ("industry", .str "Fintech"),
      ("website", .str "https://startupxyz.com"),
      ("createdAt", .str "2024-09-01T00:00:00.000Z"),
      ("updatedAt", .str "2024-09-01T00:00:00.000Z") ],
    [ ("id", .num 7),
      ("company", .str "Freelance Development"),
      ("position", .str "Web Developer"),
      ("startDate", .str "2014-06-01"),
      ("endDate", .str "2015-02-28"),
      ("location", .str "Remote"),
      ("isCurrent", .bool false),
      ("description",
        .str "Independent contractor building websites and web applications for various clients. Specialized in frontend development and UI/UX implementation."),
      ("achievements", .arr [.str "Delivered 15+ client projects with 100% satisfaction rate",
        .str "Mentored 3 junior developers from different countries",
        .str "Built reusable component library used across multiple projects"]),
      ("technologies", .arr [.str "HTML", .str "CSS", .str "JavaScript", .str "jQuery", .str "WordPress",
        .str "PHP"]),
      ("companySize", .str "Self-employed"),
      ("industry", .str "Freelance"),
      ("website", .null),
      ("createdAt", .str "2024-09-01T00:00:00.000Z"),
      ("updatedAt", .str "2024-09-01T00:00:00.000Z") ],
    [ ("id", .num 8),
      ("company", .str "University of Tech"),
      ("position", .str "Computer Science Student"),
      ("startDate", .str "2013-09-01"),
      ("endDate", .str "2017-05-31"),
      ("location", .str "Multiple Campuses"),
      ("isCurrent", .bool false),
      ("description",
        .str "Bachelor's degree in Computer Science with focus on web technologies and software engineering practices."),
      ("achievements", .arr [.str "Graduated Magna Cum Laude with 3.8 GPA",
        .str "President of Computer Science Club (2015-2016)",
        .str "Won 'Best Capstone Project' for group collaboration tool"]),
      ("technologies", .arr [.str "Java", .str "C++", .str "JavaScript", .str "HTML/CSS", .str "SQL",
        .str "Git"]),
      ("companySize", .str "10,000+ students"),
      ("industry", .str "Education"),
      ("website", .str "https://university-tech.edu"),
      ("createdAt", .str "2024-09-01T00:00:00.000Z"),
      ("updatedAt", .str "2024-09-01T00:00:00.000Z") ] ]

/-- The test `exp.id === experienceId`, where `experienceId` is the result of
`parseInt`. -/
def hasId (experienceId : Option Int) (exp : Obj) : Bool :=
  match jsGet exp "id", experienceId with
  | some (.num m), some n => decide (m = n)
  | _, _ => false

/-- The 404 body shared by the routes with an id. -/
def experienceNotFound : Response :=
  .json 404 [("success", .bool false), ("error", .str "Work experience not found")]

/-- The test `exp[k].toLowerCase().includes(needle)`; `lower` is the method
`toLowerCase`. It throws (`none`) when the field is not a string. -/
def fieldIncludes (lower : String → String) (exp : Obj) (k : String) (needle : String) :
    Option Bool :=
  match jsGet exp k with
  | some (.str s) => some (includes (lower s) needle)
  | _ => none

/-- The search predicate of the list route: company, position or description
contains the search term; a later field is only read when the earlier ones do
not match. -/
def searchMatches (lower : String → String) (needle : String) (exp : Obj) : Option Bool :=
  match fieldIncludes lower exp "company" needle with
  | none => none
  | some true => some true
  | some false =>
    match fieldIncludes lower exp "position" needle with
    | none => none
    | some true => some true
    | some false => fieldIncludes lower exp "description" needle

/-- The test `exp.company.toLowerCase() === company.toLowerCase()`; `lower` is
the method `toLowerCase`. -/
def companyMatches (lower : String → String) (company : String) (exp : Obj) : Option Bool :=
  match jsGet exp "company" with
  | some (.str s) => some (decide (lower s = lower company))
  | _ => none

/-- Handler of `GET /api/work-experience` with the query parameters `search`,
`company` and `isCurrent`; `lower` is the method `toLowerCase`. The filters run
in a timer callback, outside the `try`: when one throws no response is sent
(`none`). -/
def listExperiences (lower : String → String) (store : List Obj)
    (search company isCurrent : Option String) : Option Response :=
  let afterSearch : Option (List Obj) :=
    match search with
    | some q =>
      if q ≠ "" then filterThrowing (searchMatches lower (lower q)) store else some store
    | none => some store
  let afterCompany : Option (List Obj) :=
    match afterSearch, company with
    | some l, some c => if c ≠ "" then filterThrowing (companyMatches lower c) l else some l
    | r, _ => r
  let afterCurrent : Option (List Obj) :=
    match afterCompany, isCurrent with
    | some l, some c =>
      some (l.filter (fun exp => decide (jsGet exp "isCurrent" = some (.bool (decide (c = "true"))))))
    | r, _ => r
  afterCurrent.map (fun filtered =>
    .json 200 [("success", .bool true), ("count", .num filtered.length),
      ("total", .num store.length), ("data", .arr (filtered.map Json.obj)),
      ("filters", .obj (definedProps [("search", search.map Json.str),
        ("company", company.map Json.str), ("isCurrent", isCurrent.map Json.str)]))])

/-- Handler of `GET /api/work-experience/:id`. -/
def getExperience (store : List Obj) (idParam : String) : Response :=
  match store.find? (hasId (parseInt idParam)) with
  | none => experienceNotFound
  | some exp => .json 200 [("success", .bool true), ("data", .obj exp)]

/-- The number `Math.max(...ids) + 1` as it is serialised, for a store in which
every id is a number: the maximum of the ids plus one, and `null` (the
serialised `-Infinity`) for the empty store. The conversion to a number that
`Math.max` applies to an id that is not a number is not modelled: for a store
with such an id the value here is `null`. -/
def newId (store : List Obj) : Json :=
  match store.mapM (fun exp => match jsGet exp "id" with | some (.num n) => some n | _ => none) with
  | some (n :: ns) => .num (ns.foldl max n + 1)
  | _ => .null

/-- Handler of `POST /api/work-experience`; `now` is `new Date().toISOString()`.
The stored record is `{ id: newId, ...newExperience, createdAt, updatedAt }`. -/
def postExperience (store : List Obj) (body : Obj) (now : String) : List Obj × Response :=
  if !truthy (jsGet body "company") || !truthy (jsGet body "position") then
    (store, .json 400 [("success", .bool false),
      ("error", .str "Company and position are required fields")])
  else
    let fullExperience : Obj :=
      jsSet (jsSet (jsSpread [("id", newId store)] body) "createdAt" (.str now))
        "updatedAt" (.str now)
    (store ++ [fullExperience],
      .json 201 [("success", .bool true),
        ("message", .str "Work experience created successfully"),
        ("data", .obj fullExperience)])

/-- The record `{ ...old, ...updateData, id: experienceId, updatedAt }` of the PUT
handler. -/
def updatedExperience (old updateData : Obj) (experienceId : Int) (now : String) : Obj :=
  jsSet (jsSet (jsSpread old updateData) "id" (.num experienceId)) "updatedAt" (.str now)

/-- Handler of `PUT /api/work-experience/:id`; `now` is
`new Date().toISOString()`. -/
def putExperience (store : List Obj) (idParam : String) (body : Obj) (now : String) :
    List Obj × Response :=
  match parseInt idParam, findIndex (hasId (parseInt idParam)) store with
  | some experienceId, some i =>
    let updated := updatedExperience (store.getD i []) body experienceId now
    (store.set i updated,
      .json 200 [("success", .bool true),
        ("message", .str "Work experience updated successfully"),
        ("data", .obj updated)])
  | _, _ => (store, experienceNotFound)

/-- Handler of `DELETE /api/work-experience/:id`. -/
def deleteExperience (store : List Obj) (idParam : String) : List Obj × Response :=
  match findIndex (hasId (parseInt idParam)) store with
  | none => (store, experienceNotFound)
  | some i =>
    (store.eraseIdx i,
      .json 200 [("success", .bool true),
        ("message", .str "Work experience deleted successfully"),
        ("data", .obj (store.getD i []))])

/-- The names of the methods an object literal inherits from `Object.prototype`.
For such a name `skillCount[tech]` is the inherited function, which is truthy,
so `(skillCount[tech] || 0) + 1` is a string and not a count. -/
def inheritedKeys : List String :=
  ["constructor", "__defineGetter__", "__defineSetter__", "hasOwnProperty", "__lookupGetter__",
    "__lookupSetter__", "isPrototypeOf", "propertyIsEnumerable", "toString", "valueOf",
    "toLocaleString"]

/-- The counting step of one technology on the own properties of
`skillCount`, which hold numbers. -/
def bumpOwn : List (String × Nat) → String → List (String × Nat)
  | [], tech => [(tech, 1)]
  | (k, c) :: rest, tech =>
    if k = tech then (k, c + 1) :: rest else (k, c) :: bumpOwn rest tech

/-- The statement `skillCount[tech] = (skillCount[tech] || 0) + 1`. For the name
`__proto__` the value read is `Object.prototype` and the value written is a
string, which the setter of `__proto__` ignores: nothing is recorded. -/
def bumpSkill (skillCount : List (String × Nat)) (tech : String) : List (String × Nat) :=
  if tech = "__proto__" then skillCount else bumpOwn skillCount tech

/-- The value of a string of decimal digits. -/
def digitsValue (s : String) : Nat :=
  s.toList.foldl (fun acc c => acc * 10 + (c.toNat - 48)) 0

/-- Whether a property name is an array index: a canonical decimal numeral below
`2^32 - 1`. Such names come first, in ascending order, when the properties of an
object are listed. -/
def isArrayIndex (s : String) : Bool :=
  !s.toList.isEmpty && s.toList.all (fun c => decide (48 ≤ c.toNat ∧ c.toNat ≤ 57)) &&
    (decide (s = "0") || decide (s.toList.head? ≠ some '0')) &&
    decide (digitsValue s < 4294967295)

/-- Order of two entries by the value of their names as array indexes. -/
def indexLe (a b : String × Nat) : Prop := digitsValue a.1 ≤ digitsValue b.1

instance : DecidableRel indexLe := fun _ _ => inferInstanceAs (Decidable (_ ≤ _))

/-- The call `Object.entries(skillCount)`: the names that are array indexes in
ascending order, then the other names in the order of their creation. -/
def objectEntries (skillCount : List (String × Nat)) : List (String × Nat) :=
  (skillCount.filter (fun e => isArrayIndex e.1)).insertionSort indexLe ++
    skillCount.filter (fun e => !isArrayIndex e.1)

/-- The order of the comparator `([,a], [,b]) => b - a`: larger counts first. -/
def countDesc (a b : String × Nat) : Prop := b.2 ≤ a.2

instance : DecidableRel countDesc := fun _ _ => inferInstanceAs (Decidable (_ ≤ _))

instance : IsTotal (String × Nat) countDesc := ⟨fun a b => Nat.le_total b.2 a.2⟩

instance : IsTrans (String × Nat) countDesc := ⟨fun _ _ _ hab hbc => Nat.le_trans hbc hab⟩

/-- The function `getTopSkills` on the technologies lists of the experiences,
whose elements are strings: the skills are counted in order, the entries are
sorted by count, largest first, with a stable sort, and the first ten are kept as
`(skill, count)`. The result is `none` when a technology has the name of an
inherited method, where the counts are no numbers. -/
def getTopSkills (experiences : List (List String)) : Option (List (String × Nat)) :=
  if experiences.flatten.any (fun tech => inheritedKeys.contains tech) then none
  else
    some (((objectEntries (experiences.flatten.foldl bumpSkill [])).insertionSort countDesc).take 10)

/-- The technologies list of an experience, when it is an array of strings. -/
def technologiesOf (exp : Obj) : Option (List String) :=
  match jsGet exp "technologies" with
  | some (.arr xs) => xs.mapM (fun x => match x with | .str s => some s | _ => none)
  | _ => none

/-- Handler of `GET /api/work-experience/stats`; `stats` is the statistics object
the handler computes from the store and the clock, `now` is
`new Date().toISOString()`. -/
def getStats (stats : Obj) (now : String) : Response :=
  .json 200 [("success", .bool true), ("data", .obj stats), ("timestamp", .str now)]

/-- The `catch` branch of a handler of the server; `error` is its text. -/
def handlerFailed (error : String) : Response :=
  .json 500 [("success", .bool false), ("error", .str error)]

/-- The handlers of the server. -/
inductive Handler where
  | health | list | getById | create | update | remove | stats
  deriving Repr, DecidableEq

/-- The routes of the server in the order of their registration. -/
def routes : List (Route Handler) :=
  [ ⟨.GET, "/health", .health⟩,
    ⟨.GET, "/api/work-experience", .list⟩,
    ⟨.GET, "/api/work-experience/:id", .getById⟩,
    ⟨.POST, "/api/work-experience", .create⟩,
    ⟨.PUT, "/api/work-experience/:id", .update⟩,
    ⟨.DELETE, "/api/work-experience/:id", .remove⟩,
    ⟨.GET, "/api/work-experience/stats", .stats⟩ ]

/-- The response to a GET request on a path without query string that reaches
the id route or the statistics route; `none` for the other paths. -/
def serveGet (store : List Obj) (path : String) (stats : Obj) (now : String) : Option Response :=
  match dispatch routes .GET path with
  | some (.getById, params) => some (getExperience store ((params.lookup "id").getD ""))
  | some (.stats, _) => some (getStats stats now)
  | _ => none

end Day25

/-! ## Day-18: authentication and monitoring API (`Day-18/server.js`,
`Day-18/routes/*.js`)

The model `User` (`models/User`) and the router `routes/users` are not part of
the sources: a user document is an object, and the results of the calls on the
model are arguments of the handlers (`Except.error msg` is a call that throws
an error with message `msg`). -/

namespace Day18

/-- The handler of the rate limiter, for a request over the limit. -/
def rateLimited : Response :=
  .json 429 [("success", .bool false),
    ("message", .str "Too many requests from this IP, please try again later."),
    ("retryAfter", .num (15 * 60 * 1000))]

/-- The `catch` branch of an auth route. -/
def authFailed (message error : String) : Response :=
  .json 500 [("success", .bool false), ("message", .str message), ("error", .str error)]

/-- Handler of `POST /api/auth/register`. `findOne` is the result of
`User.findOne({ email })`, `create` the document `User.create` returns as
`toObject()` gives it, `token` the signed token. -/
def register (body : Obj) (findOne : Except String (Option Obj)) (create : Except String Obj)
    (token : String) : Response :=
  if !truthy (jsGet body "name") || !truthy (jsGet body "email") ||
      !truthy (jsGet body "password") then
    .json 400 [("success", .bool false), ("message", .str "Please provide name, email, and password")]
  else
    match findOne with
    | .error e => authFailed "Error registering user" e
    | .ok (some _) =>
      .json 400 [("success", .bool false), ("message", .str "User already exists with this email")]
    | .ok none =>
      match create with
      | .error e => authFailed "Error registering user" e
      | .ok user =>
        .json 201 [("success", .bool true), ("message", .str "User registered successfully"),
          ("token", .str token), ("data", .obj (jsDelete user "password"))]

/-- Handler of `POST /api/auth/login`. `findOne` is the result of
`User.findOne({ email }).select('+password')`, `comparePassword` the result of
`user.comparePassword(password)`, `isLocked` the value of `user.isLocked`,
`saved` the result of `resetLoginAttempts()` and `save()` together with the
document as `toObject()` gives it after them, `token` the signed token. -/
def login (body : Obj) (findOne : Except String (Option Obj))
    (comparePassword : Except String Bool) (isLocked : Bool) (saved : Except String Obj)
    (token : String) : Response :=
  if !truthy (jsGet body "email") || !truthy (jsGet body "password") then
    .json 400 [("success", .bool false), ("message", .str "Please provide email and password")]
  else
    let invalid : Response :=
      .json 401 [("success", .bool false), ("message", .str "Invalid credentials")]
    match findOne with
    | .error e => authFailed "Error logging in" e
    | .ok none => invalid
    | .ok (some _) =>
      match comparePassword with
      | .error e => authFailed "Error logging in" e
      | .ok false => invalid
      | .ok true =>
        if isLocked then
          .json 423 [("success", .bool false),
            ("message", .str "Account is temporarily locked due to too many failed attempts")]
        else
          match saved with
          | .error e => authFailed "Error logging in" e
          | .ok user =>
            .json 200 [("success", .bool true), ("message", .str "Login successful"),
              ("token", .str token), ("data", .obj (jsDelete user "password"))]

/-- Handler of `GET /api/auth/profile`. -/
def profile : Response :=
  .json 200 [("success", .bool true),
    ("message", .str "Profile endpoint - authentication middleware needed"),
    ("data", .obj [("id", .str "mock-user-id"), ("name", .str "Authenticated User"),
      ("email", .str "user@example.com")])]

/-- Handler of `GET /api/search` of `routes/api.js`. -/
def search (q type : Option String) : Response :=
  match q with
  | some query =>
    if query ≠ "" then
      .json 200 [("success", .bool true), ("query", .str query),
        ("type", .str (match type with | some t => if t ≠ "" then t else "all" | none => "all")),
        ("count", .num 2),
        ("data", .arr [
          .obj [("type", .str "user"), ("data", .obj [("id", .num 1), ("name", .str "John Doe"),
            ("email", .str "john@example.com")])],
          .obj [("type", .str "content"), ("data", .obj [("id", .num 1),
            ("title", .str "API Development Guide"),
            ("content", .str "Complete guide to API development")])]])]
    else .json 400 [("success", .bool false), ("message", .str "Search query is required")]
  | none => .json 400 [("success", .bool false), ("message", .str "Search query is required")]

/-- Handler of `GET /api/health`; `uptime` and `memory` are `process.uptime()`
and `process.memoryUsage()`, `nodeEnv` is `NODE_ENV`. The status is 503 when the
database is not connected. -/
def health (dbConnected redisOpen : Bool) (now : String) (uptime memory : Json)
    (nodeEnv : String) : Response :=
  let database := if dbConnected then "connected" else "disconnected"
  .json (if database = "connected" then 200 else 503)
    [("success", .bool true), ("message", .str "API is healthy"), ("timestamp", .str now),
      ("uptime", uptime), ("environment", .str nodeEnv), ("version", .str "1.0.0"),
      ("memory", memory), ("database", .str database),
      ("redis", .str (if redisOpen then "connected" else "disconnected"))]

/-- Handler of `GET /api/ready`; `ping` is the result of the pings of the
database and of Redis. -/
def ready (ping : Except String Unit) (now : String) : Response :=
  match ping with
  | .ok _ =>
    .json 200 [("success", .bool true), ("message", .str "API is ready"), ("timestamp", .str now)]
  | .error e =>
    .json 503 [("success", .bool false), ("message", .str "API is not ready"), ("error", .str e)]

/-- The fields of an error the global error handler reads. `statusCode` and
`status` are `none` when absent. -/
structure ServerError where
  name : String
  code : Option Int
  statusCode : Option Nat
  status : Option Nat
  message : String
  validationMessages : List String
  stack : String

/-- The global error handler; `nodeEnv` is `NODE_ENV`. -/
def errorHandler (err : ServerError) (nodeEnv : String) : Response :=
  if err.name = "ValidationError" then
    .json 400 [("success", .bool false), ("message", .str "Validation Error"),
      ("errors", .arr (err.validationMessages.map Json.str))]
  else if err.code = some 11000 then
    .json 400 [("success", .bool false), ("message", .str "Duplicate field value entered")]
  else if err.name = "JsonWebTokenError" then
    .json 401 [("success", .bool false), ("message", .str "Invalid token")]
  else if err.name = "TokenExpiredError" then
    .json 401 [("success", .bool false), ("message", .str "Token expired")]
  else
    let statusCode : Nat :=
      match err.statusCode with
      | some c => if c ≠ 0 then c else (match err.status with
          | some d => if d ≠ 0 then d else 500
          | none => 500)
      | none => (match err.status with
          | some d => if d ≠ 0 then d else 500
          | none => 500)
    .json statusCode
      ([("success", .bool false),
        ("message", .str (if nodeEnv = "production" then "Something went wrong!" else err.message))]
        ++ (if nodeEnv = "development" then [("stack", .str err.stack)] else []))

/-- The 404 handler for a request that no route matches. -/
def routeNotFound (originalUrl : String) : Response :=
  .json 404 [("success", .bool false), ("message", .str ("Route " ++ originalUrl ++ " not found"))]

end Day18

/-! ## The responses of the servers -/

/-- The route handlers and error handlers of the servers. -/
inductive Endpoint where
  | d8Projects | d8Project | d8Experiences | d8Experience | d8NotFound | d8Error
  | d10Projects | d10Create | d10NotFound | d10Error
  | d11Projects | d11Create | d11Update | d11Delete | d11NotFound | d11Error
  | d17Health | d17Users | d17User | d17CreateUser | d17UpdateUser | d17DeleteUser
  | d17Posts | d17Post | d17CreatePost | d17Search | d17NotFound | d17Error
  | d18RateLimit | d18Register | d18Login | d18Profile | d18Search | d18Health | d18Ready
  | d18Error | d18NotFound
  | d23Projects
  | d25List | d25Get | d25Create | d25Update | d25Delete | d25Stats | d25Catch
  deriving Repr, DecidableEq

/-- The CRUD handlers on `/api/projects` (Day-8, Day-10, Day-11, Day-23) and on
`/api/work-experience` (Day-25). -/
def Endpoint.isCrud : Endpoint → Bool
  | .d8Projects | .d8Project | .d10Projects | .d10Create | .d11Projects | .d11Create
  | .d11Update | .d11Delete | .d23Projects | .d25List | .d25Get | .d25Create | .d25Update
  | .d25Delete | .d25Stats | .d25Catch => true
  | _ => false

/-- The handlers of the Day-18 server. -/
def Endpoint.isDay18 : Endpoint → Bool
  | .d18RateLimit | .d18Register | .d18Login | .d18Profile | .d18Search | .d18Health
  | .d18Ready | .d18Error | .d18NotFound => true
  | _ => false

/-- The handlers of the servers Day-8, Day-10, Day-11, Day-17, Day-18 and
Day-25. -/
def Endpoint.inErrorScope : Endpoint → Bool
  | .d23Projects => false
  | _ => true

/-- `Produces e r`: the handler `e` sends the response `r` for some request, some
state of its store, and some outcome of the calls it makes. -/
inductive Produces : Endpoint → Response → Prop
  | d8Projects (lower : String → String) (projects : List Obj)
      (featured category limit : Option String) (now : String) :
      Produces .d8Projects (Day8.getProjects lower projects featured category limit now)
  | d8Project (projects : List Obj) (idParam : String) :
      Produces .d8Project (Day8.getProject projects idParam)
  | d8Experiences (lower : String → String) (items : List Obj)
      (current company limit : Option String) (now : String) :
      Produces .d8Experiences (Day8.getExperiences lower items current company limit now)
  | d8Experience (items : List Obj) (idParam : String) :
      Produces .d8Experience (Day8.getExperienceById items idParam)
  | d8NotFound (method path now : String) : Produces .d8NotFound (Day8.routeNotFound method path now)
  | d8Error (now : String) : Produces .d8Error (Day8.serverError now)
  | d10Projects (lower : String → String) (coll : List Obj) (dbFails : Bool)
      (featured category limit : Option String) :
      Produces .d10Projects (Day10.getProjects lower coll dbFails featured category limit)
  | d10Create (coll : List Obj) (dbFails : Bool) (body : Obj) (now freshId : String) :
      Produces .d10Create (Day10.postProject coll dbFails body now freshId).2
  | d10NotFound (method path now : String) :
      Produces .d10NotFound (Day10.routeNotFound method path now)
  | d10Error (now : String) : Produces .d10Error (Day10.serverError now)
  | d11Projects (lower : String → String) (coll : List Obj) (dbFails : Bool)
      (featured category limit : Option String) :
      Produces .d11Projects (Day11.getProjects lower coll dbFails featured category limit)
  | d11Create (coll : List Obj) (dbFails : Bool) (body : Obj) (now freshId : String) :
      Produces .d11Create (Day11.postProject coll dbFails body now freshId).2
  | d11Update (toObjectId : String → Option String) (coll : List Obj) (dbFails : Bool)
      (idParam : String) (body : Obj) (now : String) :
      Produces .d11Update (Day11.putProject toObjectId coll dbFails idParam body now).2
  | d11Delete (toObjectId : String → Option String) (coll : List Obj) (dbFails : Bool)
      (idParam : String) :
      Produces .d11Delete (Day11.deleteProject toObjectId coll dbFails idParam).2
  | d11NotFound (method path now : String) :
      Produces .d11NotFound (Day11.routeNotFound method path now)
  | d11Error (now : String) : Produces .d11Error (Day11.serverError now)
  | d17Health (now : String) : Produces .d17Health (Day17.getHealth now)
  | d17Users (users : List Day17.User) : Produces .d17Users (Day17.getUsers users)
  | d17User (users : List Day17.User) (idParam : String) :
      Produces .d17User (Day17.getUser users idParam)
  | d17Posts (posts : List Day17.Post) : Produces .d17Posts (Day17.getPosts posts)
  | d17Post (posts : List Day17.Post) (idParam : String) :
      Produces .d17Post (Day17.getPost posts idParam)
  | d17CreatePost (posts : List Day17.Post) (body : Obj) :
      Produces .d17CreatePost (Day17.postPost posts body).2
  | d17Search (lower : String → String) (users : List Day17.User) (posts : List Day17.Post)
      (q type : Option String) (errMessage nodeEnv : String) :
      Produces .d17Search (Day17.search lower users posts q type errMessage nodeEnv)
  | d17NotFound (originalUrl : String) : Produces .d17NotFound (Day17.routeNotFound originalUrl)
  | d17Error (errMessage nodeEnv : String) :
      Produces .d17Error (Day17.errorHandler errMessage nodeEnv)
  | d17CreateUser (users : List Day17.User) (body : Obj) :
      Produces .d17CreateUser (Day17.postUser users body).2
  | d17UpdateUser (users : List Day17.User) (idParam : String) (body : Obj) :
      Produces .d17UpdateUser (Day17.putUser users idParam body).2
  | d17DeleteUser (users : List Day17.User) (idParam : String) :
      Produces .d17DeleteUser (Day17.deleteUser users idParam).2
  | d18RateLimit : Produces .d18RateLimit Day18.rateLimited
  | d18Register (body : Obj) (findOne : Except String (Option Obj)) (create : Except String Obj)
      (token : String) : Produces .d18Register (Day18.register body findOne create token)
  | d18Login (body : Obj) (findOne : Except String (Option Obj))
      (comparePassword : Except String Bool) (isLocked : Bool) (saved : Except String Obj)
      (token : String) :
      Produces .d18Login (Day18.login body findOne comparePassword isLocked saved token)
  | d18Profile : Produces .d18Profile Day18.profile
  | d18Search (q type : Option String) : Produces .d18Search (Day18.search q type)
  | d18Health (dbConnected redisOpen : Bool) (now : String) (uptime memory : Json)
      (nodeEnv : String) :
      Produces .d18Health (Day18.health dbConnected redisOpen now uptime memory nodeEnv)
  | d18Ready (ping : Except String Unit) (now : String) : Produces .d18Ready (Day18.ready ping now)
  | d18Error (err : Day18.ServerError) (nodeEnv : String) :
      Produces .d18Error (Day18.errorHandler err nodeEnv)
  | d18NotFound (originalUrl : String) : Produces .d18NotFound (Day18.routeNotFound originalUrl)
  | d23Projects (mockProjects : List Obj) : Produces .d23Projects (Day23.getProjects mockProjects)
  | d23Catch : Produces .d23Projects Day23.getProjectsFailed
  | d25List (lower : String → String) (store : List Obj)
      (search company isCurrent : Option String) (r : Response) :
      Day25.listExperiences lower store search company isCurrent = some r →
      Produces .d25List r
  | d25Get (store : List Obj) (idParam : String) :
      Produces .d25Get (Day25.getExperience store idParam)
  | d25Create (store : List Obj) (body : Obj) (now : String) :
      Produces .d25Create (Day25.postExperience store body now).2
  | d25Update (store : List Obj) (idParam : String) (body : Obj) (now : String) :
      Produces .d25Update (Day25.putExperience store idParam body now).2
  | d25Delete (store : List Obj) (idParam : String) :
      Produces .d25Delete (Day25.deleteExperience store idParam).2
  | d25Stats (stats : Obj) (now : String) : Produces .d25Stats (Day25.getStats stats now)
  | d25Catch (error : String) : Produces .d25Catch (Day25.handlerFailed error)

/-! # Properties -/

section Basics

/-- When some element satisfies `p`, `findIndex` and `find?` agree on the first
such element. -/
theorem findIndex_of_exists {α : Type} (p : α → Bool) (l : List α)
    (h : ∃ x ∈ l, p x = true) :
    ∃ i x, findIndex p l = some i ∧ l[i]? = some x ∧ p x = true ∧ l.find? p = some x := by
  induction l with
  | nil => obtain ⟨x, hx, _⟩ := h; cases hx
  | cons a l ih =>
    by_cases ha : p a = true
    · exact ⟨0, a, by simp [findIndex, ha], by simp, ha, by simp [List.find?, ha]⟩
    · obtain ⟨x, hx, hpx⟩ := h
      have hx' : x ∈ l := by
        rcases List.mem_cons.mp hx with rfl | hmem
        · exact absurd hpx ha
        · exact hmem
      obtain ⟨i, y, hi, hy, hpy, hf⟩ := ih ⟨x, hx', hpx⟩
      refine ⟨i + 1, y, ?_, ?_, hpy, ?_⟩
      · simp [findIndex, ha, hi]
      · simpa using hy
      · simp only [Bool.not_eq_true] at ha
        simp [List.find?, ha, hf]

/-- When `findIndex` fails, no element satisfies `p`. -/
theorem findIndex_none {α : Type} (p : α → Bool) (l : List α)
    (h : findIndex p l = none) : l.find? p = none := by
  induction l with
  | nil => rfl
  | cons a l ih =>
    by_cases ha : p a = true
    · simp [findIndex, ha] at h
    · simp only [Bool.not_eq_true] at ha
      simp only [findIndex, ha, Bool.false_eq_true, if_false, Option.map_eq_none'] at h
      simp [List.find?, ha, ih h]

/-- `findIndex` finds nothing in a list no element of which passes the test. -/
theorem findIndex_eq_none {α : Type} (p : α → Bool) (l : List α)
    (h : ∀ x ∈ l, p x = false) : findIndex p l = none := by
  induction l with
  | nil => rfl
  | cons a l ih =>
    have ha : p a = false := h a (List.mem_cons_self a l)
    have hl : findIndex p l = none := ih (fun x hx => h x (List.mem_cons_of_mem a hx))
    simp [findIndex, ha, hl]

/-- When `findIndex` finds nothing, no element of the list passes the test. -/
theorem findIndex_none_forall {α : Type} (p : α → Bool) (l : List α)
    (h : findIndex p l = none) : ∀ x ∈ l, p x = false := by
  induction l with
  | nil => intro x hx; cases hx
  | cons a l ih =>
    by_cases ha : p a = true
    · simp [findIndex, ha] at h
    · simp only [Bool.not_eq_true] at ha
      simp only [findIndex, ha, Bool.false_eq_true, if_false, Option.map_eq_none'] at h
      intro x hx
      rcases List.mem_cons.mp hx with rfl | hmem
      · exact ha
      · exact ih h x hmem

/-- Reading a property of an object with one more leading entry. -/
theorem jsGet_cons (e : String × Json) (o : Obj) (k : String) :
    jsGet (e :: o) k =
      (match jsGet o k with | some w => some w | none => if e.1 = k then some e.2 else none) := by
  obtain ⟨k', v⟩ := e
  rfl

/-- Reading a property of a concatenation: the later part wins. -/
theorem jsGet_append (a b : Obj) (k : String) :
    jsGet (a ++ b) k = (match jsGet b k with | some w => some w | none => jsGet a k) := by
  induction a with
  | nil =>
    simp only [List.nil_append, jsGet]
    cases jsGet b k <;> rfl
  | cons e a ih =>
    rw [List.cons_append, jsGet_cons, ih, jsGet_cons]
    cases jsGet b k <;> rfl

/-- Own properties of an object with one more leading entry. -/
theorem jsHas_cons (e : String × Json) (o : Obj) (k : String) :
    jsHas (e :: o) k = (decide (e.1 = k) || jsHas o k) := by
  simp [jsHas]

/-- A key that is not an own property reads as `undefined`. -/
theorem jsGet_of_not_has (o : Obj) (k : String) (h : jsHas o k = false) : jsGet o k = none := by
  induction o with
  | nil => rfl
  | cons e o ih =>
    simp only [jsHas, List.any_cons, Bool.or_eq_false_iff, decide_eq_false_iff_not] at h
    have ih' := ih (by simpa [jsHas] using h.2)
    rw [jsGet_cons, ih']
    simp [h.1]

/-- Reading after rewriting every entry of key `k` to the value `v`. -/
theorem jsGet_map_replace (o : Obj) (k : String) (v : Json) (k' : String) :
    jsGet (o.map (fun e => if e.1 = k then (k, v) else e)) k' =
      (if k' = k then (if jsHas o k = true then some v else none) else jsGet o k') := by
  induction o with
  | nil => simp [jsGet, jsHas]
  | cons e o ih =>
    rw [List.map_cons, jsGet_cons, ih, jsHas_cons, jsGet_cons]
    by_cases hk : k' = k
    · subst hk
      by_cases h0 : e.1 = k'
      · cases hh : jsHas o k' <;> simp [h0]
      · cases hh : jsHas o k' <;> simp [h0]
    · simp only [hk, if_false]
      by_cases h0 : e.1 = k
      · have : ¬ k = k' := fun h => hk h.symm
        have h1 : ¬ e.1 = k' := fun h => hk (h.symm.trans h0)
        cases jsGet o k' <;> simp [h0, this, h1]
      · cases jsGet o k' <;> simp [h0]

/-- Reading after a property write. -/
theorem jsGet_jsSet (o : Obj) (k : String) (v : Json) (k' : String) :
    jsGet (jsSet o k v) k' = (if k' = k then some v else jsGet o k') := by
  unfold jsSet
  by_cases h : jsHas o k = true
  · simp only [h, if_true, jsGet_map_replace]
  · simp only [h, Bool.false_eq_true, if_false, jsGet_append]
    by_cases hk : k' = k
    · subst hk
      simp [jsGet]
    · have : ¬ k = k' := fun e => hk e.symm
      simp [jsGet, hk, this]

/-- Reading a property of a spread `{...a, ...b}`: the value in `b` when `b` has
one, the value in `a` otherwise. -/
theorem jsGet_jsSpread (a b : Obj) (k : String) :
    jsGet (jsSpread a b) k = (match jsGet b k with | some w => some w | none => jsGet a k) := by
  induction b generalizing a with
  | nil => simp [jsSpread, jsGet]
  | cons e b ih =>
    obtain ⟨k0, v0⟩ := e
    have hstep : jsSpread a ((k0, v0) :: b) = jsSpread (jsSet a k0 v0) b := by
      simp [jsSpread]
    rw [hstep, ih, jsGet_jsSet]
    simp only [jsGet]
    cases jsGet b k with
    | some w => rfl
    | none =>
      by_cases hk : k = k0
      · subst hk; simp
      · have : ¬ k0 = k := fun e => hk e.symm
        simp [hk, this]

end Basics

namespace Day17

/-- C1: a store reachable from the initial one in which DELETE of an id responds
200 and the GET of the same id that follows still responds 200: ids are
`users.length + 1`, so a POST after a DELETE reuses an id that is in the store. -/
theorem delete_then_get_still_found :
    ∃ (users : List User) (idParam : String), Reachable users ∧
      (deleteUser users idParam).2.status = 200 ∧
      (getUser (deleteUser users idParam).1 idParam).status = 200 ∧
      (getUser (deleteUser users idParam).1 idParam).field "success" = some (.bool true) :=
  ⟨(postUser (deleteUser initialUsers "1").1 [("name", .str "Ann"), ("email", .str "ann@example.com")]).1,
    "2", Reachable.post _ _ (Reachable.delete _ _ Reachable.init),
    by decide, by decide, by decide⟩

/-- C3: the health response is 200 with `success`, `message`, `timestamp` and
`version`, and it has no `uptime` field. -/
theorem getHealth_has_no_uptime (now : String) :
    (getHealth now).status = 200 ∧
      (getHealth now).field "success" = some (.bool true) ∧
      (getHealth now).field "message" = some (.str "API is healthy") ∧
      (getHealth now).field "timestamp" = some (.str now) ∧
      (getHealth now).field "version" = some (.str "1.0.0") ∧
      (getHealth now).field "uptime" = none := by
  simp [getHealth, Response.json, Response.field, jsGet]

/-- A truthy property read is a value that is there. -/
theorem truthy_some (v : Option Json) (h : truthy v = true) : some (v.getD .null) = v := by
  cases v with
  | none => simp [truthy] at h
  | some w => rfl

/-- The fields of a user after the assignments of the PUT handler. -/
theorem applyUpdate_fields (body : Obj) (u : User) :
    (applyUpdate body u).id = u.id ∧
      (applyUpdate body u).name =
        (if truthy (jsGet body "name") = true then (jsGet body "name").getD .null else u.name) ∧
      (applyUpdate body u).email =
        (if truthy (jsGet body "email") = true then (jsGet body "email").getD .null
          else u.email) ∧
      (applyUpdate body u).age =
        (if truthy (jsGet body "age") = true then (jsGet body "age").getD .null else u.age) := by
  simp only [applyUpdate]
  cases h1 : truthy (jsGet body "name") <;> cases h2 : truthy (jsGet body "email") <;>
    cases h3 : truthy (jsGet body "age") <;> simp

/-- C9 (as stated, refuted): the body supplies `age = 0` for user 1, the response
is 200, and the returned user still has the previous age 30. -/
theorem putUser_falsy_age_not_stored :
    jsGet [("age", Json.num 0)] "age" = some (.num 0) ∧
      (putUser initialUsers "1" [("age", .num 0)]).2.status = 200 ∧
      (putUser initialUsers "1" [("age", .num 0)]).2.field "data" =
        some (User.toJson ⟨1, .str "John Doe", .str "john@example.com", .num 30⟩) := by
  decide

/-- C9 (amended): for an id that some user has, PUT responds 200 with the first
user of that id, in which each of name, email and age that the body supplies
with a truthy value has the supplied value and each other one keeps its previous
value; the id, the number of users and every other user are unchanged. -/
theorem putUser_partial_update (users : List User) (idParam : String) (body : Obj)
    (h : ∃ u ∈ users, some u.id = parseInt idParam) :
    ∃ (i : Nat) (u u' : User),
      users[i]? = some u ∧ some u.id = parseInt idParam ∧
      (putUser users idParam body).2 =
        Response.json 200 [("success", .bool true), ("data", u'.toJson)] ∧
      u'.id = u.id ∧
      (truthy (jsGet body "name") = true → some u'.name = jsGet body "name") ∧
      (truthy (jsGet body "name") = false → u'.name = u.name) ∧
      (truthy (jsGet body "email") = true → some u'.email = jsGet body "email") ∧
      (truthy (jsGet body "email") = false → u'.email = u.email) ∧
      (truthy (jsGet body "age") = true → some u'.age = jsGet body "age") ∧
      (truthy (jsGet body "age") = false → u'.age = u.age) ∧
      (putUser users idParam body).1.length = users.length ∧
      (putUser users idParam body).1[i]? = some u' ∧
      (∀ j, j ≠ i → (putUser users idParam body).1[j]? = users[j]?) := by
  have h' : ∃ u ∈ users, matchesId idParam u = true := by
    obtain ⟨u, hu, hid⟩ := h
    exact ⟨u, hu, by simp [matchesId, hid]⟩
  obtain ⟨i, u, hi, hu, hp, hf⟩ := findIndex_of_exists (matchesId idParam) users h'
  have hlt : i < users.length := by
    rcases Nat.lt_or_ge i users.length with hlt | hge
    · exact hlt
    · rw [List.getElem?_eq_none hge] at hu; cases hu
  refine ⟨i, u, applyUpdate body u, hu, by simpa [matchesId] using hp, ?_,
    (applyUpdate_fields body u).1, ?_, ?_, ?_, ?_, ?_, ?_, ?_, ?_, ?_⟩
  · simp [putUser, hi, hf]
  · intro ht
    rw [(applyUpdate_fields body u).2.1, if_pos ht]; exact truthy_some _ ht
  · intro ht
    rw [(applyUpdate_fields body u).2.1, ht]; rfl
  · intro ht
    rw [(applyUpdate_fields body u).2.2.1, if_pos ht]; exact truthy_some _ ht
  · intro ht
    rw [(applyUpdate_fields body u).2.2.1, ht]; rfl
  · intro ht
    rw [(applyUpdate_fields body u).2.2.2, if_pos ht]; exact truthy_some _ ht
  · intro ht
    rw [(applyUpdate_fields body u).2.2.2, ht]; rfl
  · simp [putUser, hi, hf]
  · simp [putUser, hi, hf, List.getElem?_set, hlt]
  · intro j hj
    simp [putUser, hi, hf, List.getElem?_set, Ne.symm hj]

/-- C9 (amended), at the initial store: `PUT /api/users/2` with a name only. -/
theorem putUser_partial_update_witness :
    ∃ (i : Nat) (u u' : User),
      initialUsers[i]? = some u ∧ some u.id = parseInt "2" ∧
      (putUser initialUsers "2" [("name", .str "Jane Partial")]).2 =
        Response.json 200 [("success", .bool true), ("data", u'.toJson)] ∧
      u'.id = u.id ∧
      (truthy (jsGet [("name", .str "Jane Partial")] "name") = true →
        some u'.name = jsGet [("name", .str "Jane Partial")] "name") ∧
      (truthy (jsGet [("name", .str "Jane Partial")] "name") = false → u'.name = u.name) ∧
      (truthy (jsGet [("name", .str "Jane Partial")] "email") = true →
        some u'.email = jsGet [("name", .str "Jane Partial")] "email") ∧
      (truthy (jsGet [("name", .str "Jane Partial")] "email") = false → u'.email = u.email) ∧
      (truthy (jsGet [("name", .str "Jane Partial")] "age") = true →
        some u'.age = jsGet [("name", .str "Jane Partial")] "age") ∧
      (truthy (jsGet [("name", .str "Jane Partial")] "age") = false → u'.age = u.age) ∧
      (putUser initialUsers "2" [("name", .str "Jane Partial")]).1.length = initialUsers.length ∧
      (putUser initialUsers "2" [("name", .str "Jane Partial")]).1[i]? = some u' ∧
      (∀ j, j ≠ i →
        (putUser initialUsers "2" [("name", .str "Jane Partial")]).1[j]? = initialUsers[j]?) :=
  putUser_partial_update initialUsers "2" [("name", .str "Jane Partial")]
    ⟨⟨2, .str "Jane Smith", .str "jane@example.com", .num 25⟩, by decide, by decide⟩

/-- C10 (as stated, refuted): the body provides `age = 0` with a name and an
email, the response is 201, and the returned user has age 18. -/
theorem postUser_falsy_age_defaults :
    jsGet [("name", Json.str "Bob"), ("email", Json.str "bob@example.com"), ("age", Json.num 0)]
        "age" = some (.num 0) ∧
      (postUser initialUsers
        [("name", .str "Bob"), ("email", .str "bob@example.com"), ("age", .num 0)]).2 =
        Response.json 201 [("success", .bool true),
          ("data", User.toJson ⟨3, .str "Bob", .str "bob@example.com", .num 18⟩)] := by
  decide

/-- C10 (amended): for a body with truthy name and email, POST responds 201 with
`success = true` and the new user as data: its name and email are the submitted
ones, its age is the submitted age when that is truthy and 18 otherwise, its id
is the number of users plus one, and it is appended as the last element of the
store. -/
theorem postUser_creates (users : List User) (body : Obj)
    (hn : truthy (jsGet body "name") = true) (he : truthy (jsGet body "email") = true) :
    ∃ u : User,
      postUser users body =
        (users ++ [u], Response.json 201 [("success", .bool true), ("data", u.toJson)]) ∧
      some u.name = jsGet body "name" ∧
      some u.email = jsGet body "email" ∧
      (truthy (jsGet body "age") = true → some u.age = jsGet body "age") ∧
      (truthy (jsGet body "age") = false → u.age = .num 18) ∧
      u.id = (users.length : Int) + 1 ∧
      (postUser users body).1.getLast? = some u ∧
      (postUser users body).2.status = 201 ∧
      (postUser users body).2.field "success" = some (.bool true) ∧
      (postUser users body).2.field "data" = some u.toJson := by
  refine ⟨⟨(users.length : Int) + 1, (jsGet body "name").getD .null,
    (jsGet body "email").getD .null,
    if truthy (jsGet body "age") then (jsGet body "age").getD .null else .num 18⟩,
    ?_, truthy_some _ hn, truthy_some _ he, ?_, ?_, rfl, ?_, ?_, ?_, ?_⟩
  · simp [postUser, hn, he]
  · intro ht; simpa [ht] using truthy_some _ ht
  · intro ht; simp [ht]
  · simp [postUser, hn, he]
  · simp [postUser, hn, he, Response.json]
  · simp [postUser, hn, he, Response.json, Response.field, jsGet]
  · simp [postUser, hn, he, Response.json, Response.field, jsGet]

/-- C10 (amended), at the initial store with the body of the test suite. -/
theorem postUser_creates_witness :
    ∃ u : User,
      postUser initialUsers [("name", .str "Bob Wilson"), ("email", .str "bob@example.com")] =
        (initialUsers ++ [u],
          Response.json 201 [("success", .bool true), ("data", u.toJson)]) ∧
      some u.name = jsGet [("name", .str "Bob Wilson"), ("email", .str "bob@example.com")] "name" ∧
      some u.email =
        jsGet [("name", .str "Bob Wilson"), ("email", .str "bob@example.com")] "email" ∧
      (truthy (jsGet [("name", .str "Bob Wilson"), ("email", .str "bob@example.com")] "age") = true →
        some u.age = jsGet [("name", .str "Bob Wilson"), ("email", .str "bob@example.com")] "age") ∧
      (truthy (jsGet [("name", .str "Bob Wilson"), ("email", .str "bob@example.com")] "age") = false →
        u.age = .num 18) ∧
      u.id = (initialUsers.length : Int) + 1 ∧
      (postUser initialUsers
        [("name", .str "Bob Wilson"), ("email", .str "bob@example.com")]).1.getLast? = some u ∧
      (postUser initialUsers
        [("name", .str "Bob Wilson"), ("email", .str "bob@example.com")]).2.status = 201 ∧
      (postUser initialUsers
        [("name", .str "Bob Wilson"), ("email", .str "bob@example.com")]).2.field "success" =
        some (.bool true) ∧
      (postUser initialUsers
        [("name", .str "Bob Wilson"), ("email", .str "bob@example.com")]).2.field "data" =
        some u.toJson :=
  postUser_creates initialUsers [("name", .str "Bob Wilson"), ("email", .str "bob@example.com")]
    (by decide) (by decide)

end Day17

namespace Day25

/-- No record has the id `NaN`. -/
theorem hasId_none (exp : Obj) : hasId none exp = false := by
  unfold hasId
  split <;> simp_all

/-- The id test of the routes, spelled out. -/
theorem hasId_some (n : Int) (exp : Obj) :
    hasId (some n) exp = true ↔ jsGet exp "id" = some (.num n) := by
  unfold hasId
  split
  · next m k hm hk =>
    cases hk
    simp [hm]
  · next hno =>
    constructor
    · intro h; cases h
    · intro h; exact absurd rfl (hno n n h)

/-- C2: the path `/api/work-experience/stats` is dispatched to the id route, which
is registered before the statistics route, so for every store the response is
404 with `success = false` and not the statistics. -/
theorem stats_path_answered_by_id_route (store : List Obj) (stats : Obj) (now : String) :
    dispatch routes .GET "/api/work-experience/stats" = some (.getById, [("id", "stats")]) ∧
      serveGet store "/api/work-experience/stats" stats now = some experienceNotFound ∧
      experienceNotFound.status = 404 ∧
      experienceNotFound.field "success" = some (.bool false) := by
  have hd : dispatch routes .GET "/api/work-experience/stats" =
      some (.getById, [("id", "stats")]) := by decide
  have hp : parseInt "stats" = none := by decide
  have hfind : store.find? (hasId none) = none := by
    rw [List.find?_eq_none]
    intro x _
    simp [hasId_none]
  refine ⟨hd, ?_, by decide, by decide⟩
  simp [serveGet, hd, getExperience, List.lookup, hp, hfind]

/-- C7: on the initial store the generated id is 9, and for a body that carries
`id: 1` the response is 201 and the record stored and returned has id 1, the id
of a record that is already in the store. -/
theorem postExperience_body_id_overrides :
    newId mockWorkExperience = .num 9 ∧
      (postExperience mockWorkExperience
        [("company", .str "Acme"), ("position", .str "Engineer"), ("id", .num 1)]
        "2025-01-01T00:00:00.000Z").2.status = 201 ∧
      ((postExperience mockWorkExperience
        [("company", .str "Acme"), ("position", .str "Engineer"), ("id", .num 1)]
        "2025-01-01T00:00:00.000Z").1.getLast?.bind (fun exp => jsGet exp "id")) =
        some (.num 1) ∧
      ((postExperience mockWorkExperience
        [("company", .str "Acme"), ("position", .str "Engineer"), ("id", .num 1)]
        "2025-01-01T00:00:00.000Z").2.field "data") =
        ((postExperience mockWorkExperience
          [("company", .str "Acme"), ("position", .str "Engineer"), ("id", .num 1)]
          "2025-01-01T00:00:00.000Z").1.getLast?.map Json.obj) ∧
      (mockWorkExperience.head?.bind (fun exp => jsGet exp "id")) = some (.num 1) := by
  decide

/-- C8: for a path id that parses to `n` and is the id of a record of the store,
after PUT the record at the position of the first such record has id `n` and
`updatedAt = now`; every other field has the value of the body when the body
supplies it and its previous value otherwise; the length of the store and all
other records are unchanged; the response is 200 with the new record as data. -/
theorem putExperience_frame (store : List Obj) (idParam : String) (body : Obj) (now : String)
    (n : Int) (hn : parseInt idParam = some n)
    (h : ∃ exp ∈ store, jsGet exp "id" = some (.num n)) :
    ∃ (i : Nat) (old new : Obj),
      findIndex (hasId (some n)) store = some i ∧
      store[i]? = some old ∧ jsGet old "id" = some (.num n) ∧
      (putExperience store idParam body now).1[i]? = some new ∧
      jsGet new "id" = some (.num n) ∧
      jsGet new "updatedAt" = some (.str now) ∧
      (∀ k v, k ≠ "id" → k ≠ "updatedAt" → jsGet body k = some v → jsGet new k = some v) ∧
      (∀ k, k ≠ "id" → k ≠ "updatedAt" → jsGet body k = none → jsGet new k = jsGet old k) ∧
      (putExperience store idParam body now).1.length = store.length ∧
      (∀ j, j ≠ i → (putExperience store idParam body now).1[j]? = store[j]?) ∧
      (putExperience store idParam body now).2 =
        Response.json 200 [("success", .bool true),
          ("message", .str "Work experience updated successfully"), ("data", .obj new)] := by
  have h' : ∃ exp ∈ store, hasId (some n) exp = true := by
    obtain ⟨e, he, hid⟩ := h
    exact ⟨e, he, (hasId_some n e).2 hid⟩
  obtain ⟨i, old, hi, hold, hp, _⟩ := findIndex_of_exists (hasId (some n)) store h'
  have hlt : i < store.length := by
    rcases Nat.lt_or_ge i store.length with hlt | hge
    · exact hlt
    · rw [List.getElem?_eq_none hge] at hold; cases hold
  have hgetD : store.getD i [] = old := by
    simp [List.getD, hold]
  have hput : putExperience store idParam body now =
      (store.set i (updatedExperience old body n now),
        Response.json 200 [("success", .bool true),
          ("message", .str "Work experience updated successfully"),
          ("data", .obj (updatedExperience old body n now))]) := by
    simp only [putExperience, hn, hi, hgetD]
  refine ⟨i, old, updatedExperience old body n now, hi, hold, (hasId_some n old).1 hp, ?_, ?_, ?_,
    ?_, ?_, ?_, ?_, ?_⟩
  · simp [hput, List.getElem?_set, hlt]
  · simp [updatedExperience, jsGet_jsSet]
  · simp [updatedExperience, jsGet_jsSet]
  · intro k v hk1 hk2 hb
    simp [updatedExperience, jsGet_jsSet, jsGet_jsSpread, hk1, hk2, hb]
  · intro k hk1 hk2 hb
    simp [updatedExperience, jsGet_jsSet, jsGet_jsSpread, hk1, hk2, hb]
  · simp [hput]
  · intro j hj
    simp [hput, List.getElem?_set, Ne.symm hj]
  · simp [hput]

/-- C8, at record 3 of the initial store and a body that carries its own id. -/
theorem putExperience_frame_witness :
    parseInt "3" = some 3 ∧
      ∃ (i : Nat) (old new : Obj),
        findIndex (hasId (some 3)) mockWorkExperience = some i ∧
        mockWorkExperience[i]? = some old ∧ jsGet old "id" = some (.num 3) ∧
        (putExperience mockWorkExperience "3"
          [("id", .num 99), ("position", .str "Staff Engineer")]
          "2025-01-01T00:00:00.000Z").1[i]? = some new ∧
        jsGet new "id" = some (.num 3) ∧
        jsGet new "updatedAt" = some (.str "2025-01-01T00:00:00.000Z") ∧
        (∀ k v, k ≠ "id" → k ≠ "updatedAt" →
          jsGet [("id", Json.num 99), ("position", Json.str "Staff Engineer")] k = some v →
          jsGet new k = some v) ∧
        (∀ k, k ≠ "id" → k ≠ "updatedAt" →
          jsGet [("id", Json.num 99), ("position", Json.str "Staff Engineer")] k = none →
          jsGet new k = jsGet old k) ∧
        (putExperience mockWorkExperience "3"
          [("id", .num 99), ("position", .str "Staff Engineer")]
          "2025-01-01T00:00:00.000Z").1.length = mockWorkExperience.length ∧
        (∀ j, j ≠ i →
          (putExperience mockWorkExperience "3"
            [("id", .num 99), ("position", .str "Staff Engineer")]
            "2025-01-01T00:00:00.000Z").1[j]? = mockWorkExperience[j]?) ∧
        (putExperience mockWorkExperience "3"
          [("id", .num 99), ("position", .str "Staff Engineer")]
          "2025-01-01T00:00:00.000Z").2 =
          Response.json 200 [("success", .bool true),
            ("message", .str "Work experience updated successfully"), ("data", .obj new)] :=
  ⟨by decide,
    putExperience_frame mockWorkExperience "3"
      [("id", .num 99), ("position", .str "Staff Engineer")] "2025-01-01T00:00:00.000Z" 3
      (by decide)
      ⟨mockWorkExperience.getD 2 [],
        List.getElem?_mem (rfl : mockWorkExperience[2]? = some (mockWorkExperience.getD 2 [])),
        by decide⟩⟩

end Day25

namespace Day11

/-- C4 (as stated, refuted): for the id `invalid-id`, which `new ObjectId`
rejects, PUT and DELETE respond 400, not 404. -/
theorem invalid_id_is_400_not_404 :
    Mongo.objectIdOfHex "invalid-id" = none ∧
      (putProject Mongo.objectIdOfHex [] false "invalid-id" [("title", .str "Should fail")]
        "2025-01-01T00:00:00.000Z").2.status = 400 ∧
      (putProject Mongo.objectIdOfHex [] false "invalid-id" [("title", .str "Should fail")]
        "2025-01-01T00:00:00.000Z").2.status ≠ 404 ∧
      (deleteProject Mongo.objectIdOfHex [] false "invalid-id").2.status = 400 ∧
      (deleteProject Mongo.objectIdOfHex [] false "invalid-id").2.status ≠ 404 := by
  decide

/-- C4 (amended): for every id that `new ObjectId` rejects, PUT and DELETE respond
with status 400 and the body `success = false`, `error = 'Invalid project ID
format'`, whatever the collection, the body and the state of the database, and
the collection is left as it was. For an id `validId` that `new ObjectId`
accepts and that no document of the collection has, PUT and DELETE respond 404
with `success = false`, `error = 'Project not found'` and leave the collection
as it was; and for every id `anyId` the status is 404 only when `new ObjectId`
accepts it, the database answers and no document has it. -/
theorem invalid_id_responds_400 (toObjectId : String → Option String) (coll : List Obj)
    (dbFails : Bool) (idParam : String) (body : Obj) (now : String)
    (h : toObjectId idParam = none)
    (validId hex : String) (hv : toObjectId validId = some hex)
    (hn : ∀ doc ∈ coll, jsGet doc "_id" ≠ some (Mongo.oid hex)) :
    (putProject toObjectId coll dbFails idParam body now = (coll, invalidId) ∧
      deleteProject toObjectId coll dbFails idParam = (coll, invalidId) ∧
      invalidId.status = 400 ∧
      invalidId.field "success" = some (.bool false) ∧
      invalidId.field "error" = some (.str "Invalid project ID format")) ∧
    (putProject toObjectId coll false validId body now = (coll, projectNotFound) ∧
      deleteProject toObjectId coll false validId = (coll, projectNotFound) ∧
      projectNotFound.status = 404 ∧
      projectNotFound.field "success" = some (.bool false) ∧
      projectNotFound.field "error" = some (.str "Project not found")) ∧
    (∀ anyId : String,
      ((putProject toObjectId coll dbFails anyId body now).2.status = 404 ↔
        dbFails = false ∧ ∃ x, toObjectId anyId = some x ∧
          ∀ doc ∈ coll, jsGet doc "_id" ≠ some (Mongo.oid x)) ∧
      ((deleteProject toObjectId coll dbFails anyId).2.status = 404 ↔
        dbFails = false ∧ ∃ x, toObjectId anyId = some x ∧
          ∀ doc ∈ coll, jsGet doc "_id" ≠ some (Mongo.oid x))) := by
  have key : ∀ x : String, (∀ doc ∈ coll, jsGet doc "_id" ≠ some (Mongo.oid x)) ↔
      findIndex (fun doc => decide (jsGet doc "_id" = some (Mongo.oid x))) coll = none := by
    intro x
    constructor
    · intro hx
      exact findIndex_eq_none _ _ (fun doc hd => by simpa using hx doc hd)
    · intro hx doc hd
      simpa using findIndex_none_forall _ _ hx doc hd
  refine ⟨⟨?_, ?_, by decide, by decide, by decide⟩, ⟨?_, ?_, by decide, by decide, by decide⟩,
    fun anyId => ⟨?_, ?_⟩⟩
  · simp [putProject, h]
  · simp [deleteProject, h]
  · simp [putProject, hv, (key hex).mp hn]
  · simp [deleteProject, hv, (key hex).mp hn]
  · unfold putProject
    cases ha : toObjectId anyId with
    | none => simp [invalidId, Response.json]
    | some x =>
      cases dbFails
      · cases hf : findIndex (fun doc => decide (jsGet doc "_id" = some (Mongo.oid x))) coll with
        | none => simp [projectNotFound, Response.json, key, hf]
        | some i =>
          have hne : ¬ ∀ doc ∈ coll, jsGet doc "_id" ≠ some (Mongo.oid x) := by
            rw [key, hf]; simp
          simp only [hf, Bool.false_eq_true, if_false, true_and, Option.some.injEq,
            exists_eq_left', hne, iff_false]
          split <;> simp [Response.json]
      · simp [Response.json]
  · unfold deleteProject
    cases ha : toObjectId anyId with
    | none => simp [invalidId, Response.json]
    | some x =>
      cases dbFails
      · cases hf : findIndex (fun doc => decide (jsGet doc "_id" = some (Mongo.oid x))) coll with
        | none => simp [projectNotFound, Response.json, key, hf]
        | some i =>
          have hne : ¬ ∀ doc ∈ coll, jsGet doc "_id" ≠ some (Mongo.oid x) := by
            rw [key, hf]; simp
          simp [hf, hne]
      · simp [Response.json]

/-- C4 (amended), at the id `invalid-id` of the documented test and, for the 404,
at an id of 24 hexadecimal digits that no document of the sample collection
has. -/
theorem invalid_id_responds_400_witness :
    Mongo.objectIdOfHex "invalid-id" = none ∧
    Mongo.objectIdOfHex "FFFFFFFFFFFFFFFFFFFFFFFF" = some "ffffffffffffffffffffffff" ∧
    (putProject Mongo.objectIdOfHex sampleCollection false "invalid-id"
        [("title", .str "Should fail")] "2025-01-01T00:00:00.000Z" =
        (sampleCollection, invalidId) ∧
      deleteProject Mongo.objectIdOfHex sampleCollection false "invalid-id" =
        (sampleCollection, invalidId) ∧
      invalidId.status = 400) ∧
    (putProject Mongo.objectIdOfHex sampleCollection false "FFFFFFFFFFFFFFFFFFFFFFFF"
        [("title", .str "Should fail")] "2025-01-01T00:00:00.000Z" =
        (sampleCollection, projectNotFound) ∧
      deleteProject Mongo.objectIdOfHex sampleCollection false "FFFFFFFFFFFFFFFFFFFFFFFF" =
        (sampleCollection, projectNotFound) ∧
      projectNotFound.status = 404) :=
  have t := invalid_id_responds_400 Mongo.objectIdOfHex sampleCollection false "invalid-id"
    [("title", .str "Should fail")] "2025-01-01T00:00:00.000Z" (by decide)
    "FFFFFFFFFFFFFFFFFFFFFFFF" "ffffffffffffffffffffffff" (by decide) (by decide)
  ⟨by decide, by decide, ⟨t.1.1, t.1.2.1, t.1.2.2.1⟩, ⟨t.2.1.1, t.2.1.2.1, t.2.1.2.2.1⟩⟩

end Day11

section Envelopes

/-- The list handler of Day-10 and Day-11 when it succeeds. -/
theorem Day10.getProjects_envelope (lower : String → String) (coll : List Obj) (dbFails : Bool)
    (featured category limit : Option String)
    (hs : (Day10.getProjects lower coll dbFails featured category limit).isSuccess = true) :
    (Day10.getProjects lower coll dbFails featured category limit).field "success" =
        some (.bool true) ∧
      ∃ d, (Day10.getProjects lower coll dbFails featured category limit).field "data" =
        some d := by
  unfold Day10.getProjects at hs ⊢
  cases dbFails
  · simp [Response.json, Response.field, jsGet]
  · simp [Response.json, Response.isSuccess] at hs

/-- The create handler of Day-10 and Day-11 when it succeeds. -/
theorem Day10.postProject_envelope (coll : List Obj) (dbFails : Bool) (body : Obj)
    (now freshId : String)
    (hs : (Day10.postProject coll dbFails body now freshId).2.isSuccess = true) :
    (Day10.postProject coll dbFails body now freshId).2.field "success" = some (.bool true) ∧
      ∃ d, (Day10.postProject coll dbFails body now freshId).2.field "data" = some d := by
  unfold Day10.postProject at hs ⊢
  simp only at hs ⊢
  split
  · rename_i h1
    simp only [h1, if_true] at hs
    simp [Response.json, Response.isSuccess] at hs
  · rename_i h1
    simp only [h1, if_false] at hs
    split
    · rename_i h2
      simp only [h2, if_true] at hs
      simp [Response.json, Response.isSuccess] at hs
    · simp [Response.json, Response.field, jsGet]

/-- C5 (as stated, refuted): on Day-11 a DELETE that removes a document responds
204 with an empty body, and a PUT that updates a document responds 200 with a
body that has `success = true` and no `data` field. -/
theorem day11_success_without_data :
    Produces .d11Delete
        (Day11.deleteProject Mongo.objectIdOfHex
          [[("_id", Mongo.oid "0123456789abcdef01234567"), ("title", .str "CRUD Test")]] false
          "0123456789abcdef01234567").2 ∧
      Endpoint.d11Delete.isCrud = true ∧
      (Day11.deleteProject Mongo.objectIdOfHex
        [[("_id", Mongo.oid "0123456789abcdef01234567"), ("title", .str "CRUD Test")]] false
        "0123456789abcdef01234567").2 = ⟨204, none⟩ ∧
      (Day11.deleteProject Mongo.objectIdOfHex
        [[("_id", Mongo.oid "0123456789abcdef01234567"), ("title", .str "CRUD Test")]] false
        "0123456789abcdef01234567").2.isSuccess = true ∧
      (Day11.deleteProject Mongo.objectIdOfHex
        [[("_id", Mongo.oid "0123456789abcdef01234567"), ("title", .str "CRUD Test")]] false
        "0123456789abcdef01234567").2.field "success" = none ∧
      Produces .d11Update
        (Day11.putProject Mongo.objectIdOfHex
          [[("_id", Mongo.oid "0123456789abcdef01234567"), ("title", .str "CRUD Test")]] false
          "0123456789abcdef01234567" [("title", .str "Updated CRUD Test")]
          "2025-01-01T00:00:00.000Z").2 ∧
      (Day11.putProject Mongo.objectIdOfHex
        [[("_id", Mongo.oid "0123456789abcdef01234567"), ("title", .str "CRUD Test")]] false
        "0123456789abcdef01234567" [("title", .str "Updated CRUD Test")]
        "2025-01-01T00:00:00.000Z").2.status = 200 ∧
      (Day11.putProject Mongo.objectIdOfHex
        [[("_id", Mongo.oid "0123456789abcdef01234567"), ("title", .str "CRUD Test")]] false
        "0123456789abcdef01234567" [("title", .str "Updated CRUD Test")]
        "2025-01-01T00:00:00.000Z").2.field "data" = none :=
  ⟨Produces.d11Delete _ _ _ _, by decide, by decide, by decide, by decide,
    Produces.d11Update _ _ _ _ _ _, by decide, by decide⟩

/-- C5 (amended): every 2xx response of the GET, POST, PUT and DELETE handlers on
`/api/projects` (Day-8, Day-10, Day-11, Day-23) and on `/api/work-experience`
(Day-25) has a body with `success = true` and a `data` field, except those of
Day-11: its DELETE responds 204 with an empty body, and its PUT responds with
`success = true`, `matchedCount` and `modifiedCount` and no `data` field. -/
theorem crud_success_envelope (e : Endpoint) (r : Response) (h : Produces e r)
    (hc : e.isCrud = true) (hs : r.isSuccess = true) :
    (e = .d11Delete → r = ⟨204, none⟩) ∧
      (e = .d11Update → r.field "success" = some (.bool true) ∧ r.field "data" = none ∧
        r.field "matchedCount" = some (.num 1) ∧ ∃ m, r.field "modifiedCount" = some (.num m)) ∧
      (e ≠ .d11Delete → e ≠ .d11Update →
        r.field "success" = some (.bool true) ∧ ∃ d, r.field "data" = some d) := by
  cases h <;> simp only [Endpoint.isCrud, Bool.false_eq_true] at hc
  case d8Projects lower projects featured category limit now =>
    refine ⟨by simp, by simp, fun _ _ => ?_⟩
    unfold Day8.getProjects Day8.listItems at hs ⊢
    simp only at hs ⊢
    split
    · rename_i h1
      simp only [h1] at hs
      simp [Day8.serverError, Response.json, Response.isSuccess] at hs
    · simp [Response.json, Response.field, jsGet]
  case d8Project projects idParam =>
    refine ⟨by simp, by simp, fun _ _ => ?_⟩
    unfold Day8.getProject Day8.getItem at hs ⊢
    split at hs <;> [skip; skip; split at hs] <;>
      simp_all [Response.json, Response.field, Response.isSuccess, jsGet]
  case d10Projects lower coll dbFails featured category limit =>
    exact ⟨by simp, by simp, fun _ _ => Day10.getProjects_envelope _ _ _ _ _ _ hs⟩
  case d10Create coll dbFails body now freshId =>
    exact ⟨by simp, by simp, fun _ _ => Day10.postProject_envelope _ _ _ _ _ hs⟩
  case d11Projects lower coll dbFails featured category limit =>
    exact ⟨by simp, by simp, fun _ _ => Day10.getProjects_envelope _ _ _ _ _ _ hs⟩
  case d11Create coll dbFails body now freshId =>
    exact ⟨by simp, by simp, fun _ _ => Day10.postProject_envelope _ _ _ _ _ hs⟩
  case d11Update toObjectId coll dbFails idParam body now =>
    refine ⟨by simp, fun _ => ?_, by simp⟩
    unfold Day11.putProject at hs ⊢
    simp only at hs ⊢
    split
    · rename_i h1
      simp [h1, Day11.invalidId, Response.json, Response.isSuccess] at hs
    · rename_i hex h1
      simp only [h1] at hs
      cases dbFails
      · simp only [Bool.false_eq_true, if_false] at hs ⊢
        split
        · rename_i h2
          simp [h2, Day11.projectNotFound, Response.json, Response.isSuccess] at hs
        · rename_i i h2
          simp only [h2] at hs
          split
          · rename_i h3
            rw [if_pos h3] at hs
            simp [Response.json, Response.isSuccess] at hs
          · simp [Response.json, Response.field, jsGet]
      · simp [Response.json, Response.isSuccess] at hs
  case d11Delete toObjectId coll dbFails idParam =>
    refine ⟨fun _ => ?_, by simp, by simp⟩
    unfold Day11.deleteProject at hs ⊢
    split
    · rename_i h1
      simp [h1, Day11.invalidId, Response.json, Response.isSuccess] at hs
    · rename_i hex h1
      simp only [h1] at hs
      cases dbFails
      · simp only [Bool.false_eq_true, if_false] at hs ⊢
        split
        · rename_i h2
          simp [h2, Day11.projectNotFound, Response.json, Response.isSuccess] at hs
        · rfl
      · simp [Response.json, Response.isSuccess] at hs
  case d23Projects mockProjects =>
    refine ⟨by simp, by simp, fun _ _ => ?_⟩
    simp [Day23.getProjects, Response.json, Response.field, jsGet]
  case d23Catch =>
    simp [Day23.getProjectsFailed, Response.json, Response.isSuccess] at hs
  case d25Stats stats now =>
    refine ⟨by simp, by simp, fun _ _ => ?_⟩
    simp [Day25.getStats, Response.json, Response.field, jsGet]
  case d25Catch error =>
    simp [Day25.handlerFailed, Response.json, Response.isSuccess] at hs
  case d25List lower store search company isCurrent hr =>
    refine ⟨by simp, by simp, fun _ _ => ?_⟩
    unfold Day25.listExperiences at hr
    simp only [Option.map_eq_some'] at hr
    obtain ⟨filtered, _, rfl⟩ := hr
    simp [Response.json, Response.field, jsGet]
  case d25Get store idParam =>
    refine ⟨by simp, by simp, fun _ _ => ?_⟩
    unfold Day25.getExperience at hs ⊢
    split at hs <;>
      simp_all [Response.json, Response.field, Response.isSuccess, jsGet, Day25.experienceNotFound]
  case d25Create store body now =>
    refine ⟨by simp, by simp, fun _ _ => ?_⟩
    unfold Day25.postExperience at hs ⊢
    simp only at hs ⊢
    split
    · rename_i h1
      simp [h1, Response.json, Response.isSuccess] at hs
    · simp [Response.json, Response.field, jsGet]
  case d25Update store idParam body now =>
    refine ⟨by simp, by simp, fun _ _ => ?_⟩
    unfold Day25.putExperience at hs ⊢
    split at hs <;>
      simp_all [Response.json, Response.field, Response.isSuccess, jsGet, Day25.experienceNotFound]
  case d25Delete store idParam =>
    refine ⟨by simp, by simp, fun _ _ => ?_⟩
    unfold Day25.deleteExperience at hs ⊢
    split at hs <;>
      simp_all [Response.json, Response.field, Response.isSuccess, jsGet, Day25.experienceNotFound]

/-- C5 (amended), at the Day-23 list handler and the array of the server. -/
theorem crud_success_envelope_witness :
    Produces .d23Projects (Day23.getProjects Day23.mockProjects) ∧
      Endpoint.d23Projects.isCrud = true ∧
      (Day23.getProjects Day23.mockProjects).isSuccess = true ∧
      ((Endpoint.d23Projects = .d11Delete → Day23.getProjects Day23.mockProjects = ⟨204, none⟩) ∧
        (Endpoint.d23Projects = .d11Update →
          (Day23.getProjects Day23.mockProjects).field "success" = some (.bool true) ∧
            (Day23.getProjects Day23.mockProjects).field "data" = none ∧
            (Day23.getProjects Day23.mockProjects).field "matchedCount" = some (.num 1) ∧
            ∃ m, (Day23.getProjects Day23.mockProjects).field "modifiedCount" = some (.num m)) ∧
        (Endpoint.d23Projects ≠ .d11Delete → Endpoint.d23Projects ≠ .d11Update →
          (Day23.getProjects Day23.mockProjects).field "success" = some (.bool true) ∧
            ∃ d, (Day23.getProjects Day23.mockProjects).field "data" = some d)) :=
  ⟨Produces.d23Projects _, by decide, by decide,
    crud_success_envelope .d23Projects (Day23.getProjects Day23.mockProjects)
      (Produces.d23Projects _) (by decide) (by decide)⟩

/-- C6 (as stated, refuted): a login for an email that no user has responds 401,
and the Day-18 health check with the database disconnected responds 503 with
`success = true`. -/
theorem day18_error_statuses :
    Produces .d18Login
        (Day18.login [("email", .str "nobody@example.com"), ("password", .str "secret")]
          (.ok none) (.ok false) false (.error "") "") ∧
      Endpoint.d18Login.inErrorScope = true ∧
      (Day18.login [("email", .str "nobody@example.com"), ("password", .str "secret")]
        (.ok none) (.ok false) false (.error "") "").isSuccess = false ∧
      (Day18.login [("email", .str "nobody@example.com"), ("password", .str "secret")]
        (.ok none) (.ok false) false (.error "") "").status = 401 ∧
      Produces .d18Health
        (Day18.health false false "2025-01-01T00:00:00.000Z" (.num 12) (.obj []) "production") ∧
      (Day18.health false false "2025-01-01T00:00:00.000Z" (.num 12) (.obj [])
        "production").status = 503 ∧
      (Day18.health false false "2025-01-01T00:00:00.000Z" (.num 12) (.obj [])
        "production").field "success" = some (.bool true) :=
  ⟨Produces.d18Login _ _ _ _ _ _, by decide, by decide, by decide,
    Produces.d18Health _ _ _ _ _ _, by decide, by decide⟩

/-- C6 (amended): every non-2xx response of a route handler or error handler of
Day-8, Day-10, Day-11, Day-17 and Day-25 has status 400, 404 or 500 and a body
with `success = false`. On Day-18 every non-2xx response has `success = false`
except that of the health check, which is 503 with `success = true`; the
statuses of Day-18 are 400, 401, 404, 423, 429, 500 and 503, and the global
error handler also sends the status the error carries. -/
theorem error_response_shape (e : Endpoint) (r : Response) (h : Produces e r)
    (hscope : e.inErrorScope = true) (hs : r.isSuccess = false) :
    (e.isDay18 = false →
        (r.status = 400 ∨ r.status = 404 ∨ r.status = 500) ∧
          r.field "success" = some (.bool false)) ∧
      (e.isDay18 = true → e ≠ .d18Health → r.field "success" = some (.bool false)) ∧
      (e.isDay18 = true → e ≠ .d18Error → r.status ∈ [400, 401, 404, 423, 429, 500, 503]) ∧
      (e = .d18Health → r.status = 503 ∧ r.field "success" = some (.bool true)) := by
  cases h <;> revert hs <;>
    simp only [Endpoint.isDay18, Endpoint.inErrorScope, Bool.false_eq_true, false_implies, true_implies,
      ne_eq, not_true_eq_false, not_false_eq_true, reduceCtorEq, and_true, true_and, implies_true]
  case d23Projects mockProjects =>
    simp [Endpoint.inErrorScope] at hscope
  case d23Catch =>
    simp [Endpoint.inErrorScope] at hscope
  case d25Stats stats now =>
    simp [Day25.getStats, Response.json, Response.field, Response.isSuccess, jsGet]
  case d25Catch error =>
    simp [Day25.handlerFailed, Response.json, Response.field, Response.isSuccess, jsGet]
  case d8Projects lower projects featured category limit now =>
    unfold Day8.getProjects Day8.listItems
    simp only
    split <;> simp [Day8.serverError, Response.json, Response.field, Response.isSuccess, jsGet]
  case d8Project projects idParam =>
    unfold Day8.getProject Day8.getItem
    split <;> [skip; skip; split] <;>
      simp [Response.json, Response.field, Response.isSuccess, jsGet]
  case d8Experiences lower projects featured category limit now =>
    unfold Day8.getExperiences Day8.listItems
    simp only
    split <;> simp [Day8.serverError, Response.json, Response.field, Response.isSuccess, jsGet]
  case d8Experience projects idParam =>
    unfold Day8.getExperienceById Day8.getItem
    split <;> [skip; skip; split] <;>
      simp [Response.json, Response.field, Response.isSuccess, jsGet]
  case d8NotFound method path now =>
    simp [Day8.routeNotFound, Response.json, Response.field, Response.isSuccess, jsGet]
  case d8Error now =>
    simp [Day8.serverError, Response.json, Response.field, Response.isSuccess, jsGet]
  case d10Projects lower coll dbFails featured category limit =>
    unfold Day10.getProjects
    cases dbFails <;> simp [Response.json, Response.field, Response.isSuccess, jsGet]
  case d10Create coll dbFails body now freshId =>
    unfold Day10.postProject
    simp only
    split <;> [skip; split] <;> simp [Response.json, Response.field, Response.isSuccess, jsGet]
  case d10NotFound method path now =>
    simp [Day10.routeNotFound, Response.json, Response.field, Response.isSuccess, jsGet]
  case d10Error now =>
    simp [Day10.serverError, Day8.serverError, Response.json, Response.field, Response.isSuccess,
      jsGet]
  case d11Projects lower coll dbFails featured category limit =>
    unfold Day11.getProjects Day10.getProjects
    cases dbFails <;> simp [Response.json, Response.field, Response.isSuccess, jsGet]
  case d11Create coll dbFails body now freshId =>
    unfold Day11.postProject Day10.postProject
    simp only
    split <;> [skip; split] <;> simp [Response.json, Response.field, Response.isSuccess, jsGet]
  case d11Update toObjectId coll dbFails idParam body now =>
    unfold Day11.putProject
    simp only
    split
    · simp [Day11.invalidId, Response.json, Response.field, Response.isSuccess, jsGet]
    · cases dbFails
      · simp only [Bool.false_eq_true, if_false]
        split
        · simp [Day11.projectNotFound, Response.json, Response.field, Response.isSuccess, jsGet]
        · split <;> simp [Response.json, Response.field, Response.isSuccess, jsGet]
      · simp [Response.json, Response.field, Response.isSuccess, jsGet]
  case d11Delete toObjectId coll dbFails idParam =>
    unfold Day11.deleteProject
    split
    · simp [Day11.invalidId, Response.json, Response.field, Response.isSuccess, jsGet]
    · cases dbFails
      · simp only [Bool.false_eq_true, if_false]
        split
        · simp [Day11.projectNotFound, Response.json, Response.field, Response.isSuccess, jsGet]
        · simp [Response.isSuccess]
      · simp [Response.json, Response.field, Response.isSuccess, jsGet]
  case d11NotFound method path now =>
    simp [Day11.routeNotFound, Response.json, Response.field, Response.isSuccess, jsGet]
  case d11Error now =>
    simp [Day11.serverError, Day8.serverError, Response.json, Response.field, Response.isSuccess,
      jsGet]
  case d17Health now =>
    simp [Day17.getHealth, Response.json, Response.field, Response.isSuccess, jsGet]
  case d17Users users =>
    simp [Day17.getUsers, Response.json, Response.field, Response.isSuccess, jsGet]
  case d17User users idParam =>
    unfold Day17.getUser
    split <;> simp [Day17.userNotFound, Response.json, Response.field, Response.isSuccess, jsGet]
  case d17Posts posts =>
    simp [Day17.getPosts, Response.json, Response.field, Response.isSuccess, jsGet]
  case d17Post posts idParam =>
    unfold Day17.getPost
    split <;> simp [Response.json, Response.field, Response.isSuccess, jsGet]
  case d17CreateUser users body =>
    unfold Day17.postUser
    simp only
    split <;> simp [Response.json, Response.field, Response.isSuccess, jsGet]
  case d17CreatePost posts body =>
    unfold Day17.postPost
    simp only
    split <;> simp [Response.json, Response.field, Response.isSuccess, jsGet]
  case d17UpdateUser users idParam body =>
    unfold Day17.putUser
    split <;> simp [Day17.userNotFound, Response.json, Response.field, Response.isSuccess, jsGet]
  case d17DeleteUser users idParam =>
    unfold Day17.deleteUser
    split <;> simp [Day17.userNotFound, Response.json, Response.field, Response.isSuccess, jsGet]
  case d17Search lower users posts q type errMessage nodeEnv =>
    unfold Day17.search
    split
    · simp [Response.json, Response.field, Response.isSuccess, jsGet]
    · split
      · simp [Response.json, Response.field, Response.isSuccess, jsGet]
      · split <;>
          simp [Day17.errorHandler, Response.json, Response.field, Response.isSuccess, jsGet]
  case d17NotFound originalUrl =>
    simp [Day17.routeNotFound, Response.json, Response.field, Response.isSuccess, jsGet]
  case d17Error errMessage nodeEnv =>
    simp [Day17.errorHandler, Response.json, Response.field, Response.isSuccess, jsGet]
  case d18RateLimit =>
    simp [Day18.rateLimited, Response.json, Response.field, Response.isSuccess, jsGet]
  case d18Register body findOne create token =>
    unfold Day18.register
    split
    · simp [Response.json, Response.field, Response.isSuccess, jsGet]
    · split <;> [skip; skip; split] <;>
        simp [Day18.authFailed, Response.json, Response.field, Response.isSuccess, jsGet]
  case d18Login body findOne comparePassword isLocked saved token =>
    unfold Day18.login
    simp only
    split
    · simp [Response.json, Response.field, Response.isSuccess, jsGet]
    · split
      · simp [Day18.authFailed, Response.json, Response.field, Response.isSuccess, jsGet]
      · simp [Response.json, Response.field, Response.isSuccess, jsGet]
      · split
        · simp [Day18.authFailed, Response.json, Response.field, Response.isSuccess, jsGet]
        · simp [Response.json, Response.field, Response.isSuccess, jsGet]
        · split
          · simp [Response.json, Response.field, Response.isSuccess, jsGet]
          · split <;>
              simp [Day18.authFailed, Response.json, Response.field, Response.isSuccess, jsGet]
  case d18Profile =>
    simp [Day18.profile, Response.json, Response.field, Response.isSuccess, jsGet]
  case d18Search q type =>
    unfold Day18.search
    split <;> [split; skip] <;> simp [Response.json, Response.field, Response.isSuccess, jsGet]
  case d18Health dbConnected redisOpen now uptime memory nodeEnv =>
    cases dbConnected <;>
      simp [Day18.health, Response.json, Response.field, Response.isSuccess, jsGet]
  case d18Ready ping now =>
    unfold Day18.ready
    split <;> simp [Response.json, Response.field, Response.isSuccess, jsGet]
  case d18Error err nodeEnv =>
    unfold Day18.errorHandler
    simp only
    split_ifs <;> simp [Response.json, Response.field, Response.isSuccess, jsGet]
  case d18NotFound originalUrl =>
    simp [Day18.routeNotFound, Response.json, Response.field, Response.isSuccess, jsGet]
  case d25List lower store search company isCurrent hr =>
    unfold Day25.listExperiences at hr
    simp only [Option.map_eq_some'] at hr
    obtain ⟨filtered, _, rfl⟩ := hr
    simp [Response.json, Response.field, Response.isSuccess, jsGet]
  case d25Get store idParam =>
    unfold Day25.getExperience
    split <;>
      simp [Day25.experienceNotFound, Response.json, Response.field, Response.isSuccess, jsGet]
  case d25Create store body now =>
    unfold Day25.postExperience
    simp only
    split <;> simp [Response.json, Response.field, Response.isSuccess, jsGet]
  case d25Update store idParam body now =>
    unfold Day25.putExperience
    split <;>
      simp [Day25.experienceNotFound, Response.json, Response.field, Response.isSuccess, jsGet]
  case d25Delete store idParam =>
    unfold Day25.deleteExperience
    split <;>
      simp [Day25.experienceNotFound, Response.json, Response.field, Response.isSuccess, jsGet]

/-- C6 (amended), at the 404 response of `GET /api/users/999` on Day-17. -/
theorem error_response_shape_witness :
    Produces .d17User (Day17.getUser Day17.initialUsers "999") ∧
      Endpoint.d17User.inErrorScope = true ∧
      (Day17.getUser Day17.initialUsers "999").isSuccess = false ∧
      ((Endpoint.d17User.isDay18 = false →
          ((Day17.getUser Day17.initialUsers "999").status = 400 ∨
            (Day17.getUser Day17.initialUsers "999").status = 404 ∨
            (Day17.getUser Day17.initialUsers "999").status = 500) ∧
          (Day17.getUser Day17.initialUsers "999").field "success" = some (.bool false)) ∧
        (Endpoint.d17User.isDay18 = true → Endpoint.d17User ≠ .d18Health →
          (Day17.getUser Day17.initialUsers "999").field "success" = some (.bool false)) ∧
        (Endpoint.d17User.isDay18 = true → Endpoint.d17User ≠ .d18Error →
          (Day17.getUser Day17.initialUsers "999").status ∈ [400, 401, 404, 423, 429, 500, 503]) ∧
        (Endpoint.d17User = .d18Health →
          (Day17.getUser Day17.initialUsers "999").status = 503 ∧
          (Day17.getUser Day17.initialUsers "999").field "success" = some (.bool true))) :=
  ⟨Produces.d17User _ _, by decide, by decide,
    error_response_shape .d17User (Day17.getUser Day17.initialUsers "999")
      (Produces.d17User _ _) (by decide) (by decide)⟩

end Envelopes

namespace Day17

/-- The values that are not truthy: `undefined`, `null`, `false`, `0` and the
empty string. -/
theorem truthy_eq_false_iff (v : Option Json) :
    truthy v = false ↔
      (v = none ∨ v = some .null ∨ v = some (.bool false) ∨ v = some (.num 0) ∨
        v = some (.str "")) := by
  cases v with
  | none => simp [truthy]
  | some w =>
    cases w with
    | null => simp [truthy]
    | bool b => cases b <;> simp [truthy]
    | num n => simp [truthy]
    | str s => simp [truthy]
    | arr xs => simp [truthy]
    | obj kvs => simp [truthy]

/-- C11 (as stated, refuted): a body whose name is `0`, or `false`, has a name
that is neither missing nor empty, and an email; the response is 400 with the
message `'Name and email are required'`. -/
theorem postUser_zero_name_is_400 :
    jsGet [("name", .num 0), ("email", .str "a@b.c")] "name" = some (.num 0) ∧
      jsGet [("name", .num 0), ("email", .str "a@b.c")] "email" = some (.str "a@b.c") ∧
      (postUser initialUsers [("name", .num 0), ("email", .str "a@b.c")]).2.status = 400 ∧
      (postUser initialUsers [("name", .num 0), ("email", .str "a@b.c")]).2.field "message" =
        some (.str "Name and email are required") ∧
      (postUser initialUsers [("name", .bool false), ("email", .str "a@b.c")]).2.status = 400 ∧
      (postUser initialUsers [("name", .str "Zero"), ("email", .str "a@b.c")]).2.status = 201 := by
  decide

/-- C11 (amended): POST /api/users responds 400 with `success = false` and the
message `'Name and email are required'` exactly when name or email is not
truthy, that is, absent, `null`, `false`, `0` or `''`, and then the store is
unchanged; for a name and an email that are strings when present this is:
absent or `''`. -/
theorem postUser_required_fields (users : List User) (body : Obj) :
    (((postUser users body).2.status = 400 ∧
        (postUser users body).2.field "success" = some (.bool false) ∧
        (postUser users body).2.field "message" = some (.str "Name and email are required") ∧
        includes "Name and email are required" "required" = true) ↔
      (truthy (jsGet body "name") = false ∨ truthy (jsGet body "email") = false)) ∧
    ((truthy (jsGet body "name") = false ∨ truthy (jsGet body "email") = false) →
      (postUser users body).1 = users) ∧
    (∀ name email : Option String,
      jsGet body "name" = name.map Json.str → jsGet body "email" = email.map Json.str →
      ((postUser users body).2.status = 400 ↔
        (name = none ∨ name = some "" ∨ email = none ∨ email = some ""))) ∧
    (∀ v : Option Json, truthy v = false ↔
      (v = none ∨ v = some .null ∨ v = some (.bool false) ∨ v = some (.num 0) ∨
        v = some (.str ""))) ∧
    ((postUser users body).2.status = 400 ↔
      ((jsGet body "name" = none ∨ jsGet body "name" = some .null ∨
          jsGet body "name" = some (.bool false) ∨ jsGet body "name" = some (.num 0) ∨
          jsGet body "name" = some (.str "")) ∨
        (jsGet body "email" = none ∨ jsGet body "email" = some .null ∨
          jsGet body "email" = some (.bool false) ∨ jsGet body "email" = some (.num 0) ∨
          jsGet body "email" = some (.str "")))) := by
  have hcontains : includes "Name and email are required" "required" = true := by decide
  have key : (truthy (jsGet body "name") = false ∨ truthy (jsGet body "email") = false) →
      postUser users body =
        (users, Response.json 400 [("success", .bool false),
          ("message", .str "Name and email are required")]) := by
    intro h
    have : (!truthy (jsGet body "name") || !truthy (jsGet body "email")) = true := by
      rcases h with h | h <;> simp [h]
    simp only [postUser, this, if_true]
  have key2 : ¬ (truthy (jsGet body "name") = false ∨ truthy (jsGet body "email") = false) →
      (postUser users body).2.status = 201 := by
    intro h
    have : (!truthy (jsGet body "name") || !truthy (jsGet body "email")) = false := by
      cases h1 : truthy (jsGet body "name") <;> cases h2 : truthy (jsGet body "email") <;>
        simp_all
    simp [postUser, this, Response.json]
  have hstatus : (postUser users body).2.status = 400 ↔
      (truthy (jsGet body "name") = false ∨ truthy (jsGet body "email") = false) := by
    constructor
    · intro h400
      by_contra hno
      rw [key2 hno] at h400
      cases h400
    · intro h
      rw [key h]; rfl
  refine ⟨⟨fun h => hstatus.1 h.1, fun h => ?_⟩, fun h => by rw [key h], ?_,
    truthy_eq_false_iff, ?_⟩
  · rw [key h]
    exact ⟨rfl, by simp [Response.json, Response.field, jsGet],
      by simp [Response.json, Response.field, jsGet], hcontains⟩
  · intro name email hn he
    rw [hstatus, hn, he]
    cases name <;> cases email <;> simp [truthy]
  · rw [hstatus, truthy_eq_false_iff, truthy_eq_false_iff]

end Day17

namespace Day17

/-- Lower-casing a character twice is lower-casing it once. -/
theorem toLower_toLower (c : Char) : c.toLower.toLower = c.toLower := by
  by_cases h : 65 ≤ c.toNat ∧ c.toNat ≤ 90
  · have hc : c = Char.ofNat c.toNat := (Char.ofNat_toNat c).symm
    obtain ⟨h1, h2⟩ := h
    generalize c.toNat = n at hc h1 h2
    subst hc
    interval_cases n <;> decide
  · have : c.toLower = c := by
      unfold Char.toLower
      simp only [ge_iff_le]
      rw [if_neg h]
    rw [this, this]

/-- Lower-casing the upper-case form of an ASCII letter is lower-casing it. -/
theorem toLower_toUpper (c : Char) : c.toUpper.toLower = c.toLower := by
  by_cases h : 97 ≤ c.toNat ∧ c.toNat ≤ 122
  · have hc : c = Char.ofNat c.toNat := (Char.ofNat_toNat c).symm
    obtain ⟨h1, h2⟩ := h
    generalize c.toNat = n at hc h1 h2
    subst hc
    interval_cases n <;> decide
  · have : c.toUpper = c := by
      unfold Char.toUpper
      simp only [ge_iff_le]
      rw [if_neg h]
    rw [this]

/-- Lower-casing ASCII letters twice is lower-casing them once. -/
theorem asciiLower_asciiLower (q : String) : asciiLower (asciiLower q) = asciiLower q := by
  unfold asciiLower
  congr 1
  simp only [String.toList, List.map_map]
  apply List.map_congr_left
  intro c _
  exact toLower_toLower c

/-- Lower-casing the ASCII upper-case form is lower-casing the string. -/
theorem asciiLower_asciiUpper (q : String) : asciiLower (asciiUpper q) = asciiLower q := by
  unfold asciiLower asciiUpper
  congr 1
  simp only [String.toList, List.map_map]
  apply List.map_congr_left
  intro c _
  exact toLower_toUpper c

/-- The ASCII lower-case form of a non-empty string is not empty. -/
theorem asciiLower_ne_empty (q : String) (hq : q ≠ "") : asciiLower q ≠ "" := by
  intro h
  apply hq
  have hd : (asciiLower q).data = [] := by rw [h]
  simp only [asciiLower, String.toList, List.map_eq_nil_iff] at hd
  cases q with
  | mk data => simp only at hd; rw [hd]

/-- The ASCII upper-case form of a non-empty string is not empty. -/
theorem asciiUpper_ne_empty (q : String) (hq : q ≠ "") : asciiUpper q ≠ "" := by
  intro h
  apply hq
  have hd : (asciiUpper q).data = [] := by rw [h]
  simp only [asciiUpper, String.toList, List.map_eq_nil_iff] at hd
  cases q with
  | mk data => simp only at hd; rw [hd]

/-- The ASCII case conversions have the laws assumed of the methods. -/
theorem asciiCaseLaws : CaseLaws asciiLower asciiUpper :=
  ⟨asciiLower_asciiLower, asciiLower_ne_empty, asciiUpper_ne_empty⟩

/-- The test on two fields reads the query through its lower-case form only. -/
theorem eitherIncludes_congr (lower : String → String) (a b : Json) (q q' : String)
    (h : lower q = lower q') : eitherIncludes lower a b q = eitherIncludes lower a b q' := by
  unfold eitherIncludes
  rw [h]

/-- The results of the search depend on the query through its lower-case form
only. -/
theorem searchResults_congr (lower : String → String) (users : List User) (posts : List Post)
    (q q' : String) (type : Option String) (h : lower q = lower q') :
    searchResults lower users posts q type = searchResults lower users posts q' type := by
  unfold searchResults
  have h1 : (fun u : User => eitherIncludes lower u.name u.email q) =
      (fun u : User => eitherIncludes lower u.name u.email q') :=
    funext (fun u => eitherIncludes_congr _ _ _ _ _ h)
  have h2 : (fun p : Post => eitherIncludes lower p.title p.content q) =
      (fun p : Post => eitherIncludes lower p.title p.content q') :=
    funext (fun p => eitherIncludes_congr _ _ _ _ _ h)
  simp only [h1, h2]

/-- Two non-empty queries with the same lower-case form get the same response
but for the field `query`: the same status, count and data. -/
theorem search_congr (lower : String → String) (users : List User) (posts : List Post)
    (q q' : String) (type : Option String) (errMessage nodeEnv : String) (hq : q ≠ "")
    (hq' : q' ≠ "") (h : lower q = lower q') :
    (search lower users posts (some q) type errMessage nodeEnv).status =
        (search lower users posts (some q') type errMessage nodeEnv).status ∧
      (search lower users posts (some q) type errMessage nodeEnv).field "count" =
        (search lower users posts (some q') type errMessage nodeEnv).field "count" ∧
      (search lower users posts (some q) type errMessage nodeEnv).field "data" =
        (search lower users posts (some q') type errMessage nodeEnv).field "data" := by
  simp only [search, hq, hq', if_false, searchResults_congr lower users posts q q' type h]
  cases searchResults lower users posts q' type <;>
    simp [Response.json, Response.field, jsGet]

/-- C12 (as stated, refuted): the upper-case form of the query `ı` (dotless i) is
`I`, whose lower-case form is `i` and not `ı`; on the initial store the query
`ı` has no result and its upper-case form has three. On the strings of this
example `asciiLower` is the method `toLowerCase`. -/
theorem search_dotless_i_differs :
    upperDotlessI "ı" = "I" ∧ asciiLower "ı" = "ı" ∧ asciiLower (upperDotlessI "ı") = "i" ∧
      (search asciiLower initialUsers initialPosts (some "ı") none "" "production").status = 200 ∧
      (search asciiLower initialUsers initialPosts (some "ı") none "" "production").field
        "count" = some (.num 0) ∧
      (search asciiLower initialUsers initialPosts (some (upperDotlessI "ı")) none ""
        "production").status = 200 ∧
      (search asciiLower initialUsers initialPosts (some (upperDotlessI "ı")) none ""
        "production").field "count" = some (.num 3) := by
  decide

/-- C12 (amended): `lower` and `upper` are the methods `toLowerCase` and
`toUpperCase`, of which the laws `CaseLaws` are used. For every store, every type parameter and every non-empty query
`q` whose upper-case form has the lower-case form of `q`, GET /api/search
returns the same status, count and data for `q`, for `q` in upper case and for
`q` in lower case. -/
theorem search_case_insensitive (lower upper : String → String) (users : List User)
    (posts : List Post) (q : String) (type : Option String) (errMessage nodeEnv : String)
    (laws : CaseLaws lower upper) (hq : q ≠ "") (h : lower (upper q) = lower q) :
    ((search lower users posts (some (upper q)) type errMessage nodeEnv).status =
        (search lower users posts (some q) type errMessage nodeEnv).status ∧
      (search lower users posts (some (upper q)) type errMessage nodeEnv).field "count" =
        (search lower users posts (some q) type errMessage nodeEnv).field "count" ∧
      (search lower users posts (some (upper q)) type errMessage nodeEnv).field "data" =
        (search lower users posts (some q) type errMessage nodeEnv).field "data") ∧
    ((search lower users posts (some (lower q)) type errMessage nodeEnv).status =
        (search lower users posts (some q) type errMessage nodeEnv).status ∧
      (search lower users posts (some (lower q)) type errMessage nodeEnv).field "count" =
        (search lower users posts (some q) type errMessage nodeEnv).field "count" ∧
      (search lower users posts (some (lower q)) type errMessage nodeEnv).field "data" =
        (search lower users posts (some q) type errMessage nodeEnv).field "data") :=
  ⟨search_congr lower users posts _ _ type errMessage nodeEnv (laws.upper_ne q hq) hq h,
    search_congr lower users posts _ _ type errMessage nodeEnv (laws.lower_ne q hq) hq
      (laws.lower_lower q)⟩

/-- C12 (amended), at the query `John` of the test suite on the initial store,
with the case conversions of ASCII. -/
theorem search_case_insensitive_witness :
    CaseLaws asciiLower asciiUpper ∧ ("John" : String) ≠ "" ∧
    asciiLower (asciiUpper "John") = asciiLower "John" ∧
    (((search asciiLower initialUsers initialPosts (some (asciiUpper "John")) none ""
          "test").status =
        (search asciiLower initialUsers initialPosts (some "John") none "" "test").status ∧
      (search asciiLower initialUsers initialPosts (some (asciiUpper "John")) none ""
          "test").field "count" =
        (search asciiLower initialUsers initialPosts (some "John") none "" "test").field "count" ∧
      (search asciiLower initialUsers initialPosts (some (asciiUpper "John")) none ""
          "test").field "data" =
        (search asciiLower initialUsers initialPosts (some "John") none "" "test").field "data") ∧
    ((search asciiLower initialUsers initialPosts (some (asciiLower "John")) none ""
          "test").status =
        (search asciiLower initialUsers initialPosts (some "John") none "" "test").status ∧
      (search asciiLower initialUsers initialPosts (some (asciiLower "John")) none ""
          "test").field "count" =
        (search asciiLower initialUsers initialPosts (some "John") none "" "test").field "count" ∧
      (search asciiLower initialUsers initialPosts (some (asciiLower "John")) none ""
          "test").field "data" =
        (search asciiLower initialUsers initialPosts (some "John") none "" "test").field
          "data")) :=
  ⟨asciiCaseLaws, by decide, by decide,
    search_case_insensitive asciiLower asciiUpper initialUsers initialPosts "John" none "" "test"
      asciiCaseLaws (by decide) (by decide)⟩

end Day17

section Filters

/-- A filter whose predicate never throws is the plain filter. -/
theorem filterThrowing_total {α : Type} (p : α → Option Bool) (f : α → Bool) (l : List α)
    (h : ∀ x ∈ l, p x = some (f x)) : filterThrowing p l = some (l.filter f) := by
  induction l with
  | nil => rfl
  | cons a l ih =>
    have ha := h a (List.mem_cons_self a l)
    have hl := ih (fun x hx => h x (List.mem_cons_of_mem a hx))
    simp only [filterThrowing, ha, hl, List.filter_cons]

end Filters

namespace Day17

/-- On two strings the test of the search is the disjunction of the two
containments. -/
theorem eitherIncludes_str (lower : String → String) (a b q : String) :
    eitherIncludes lower (.str a) (.str b) q =
      some (specContainsIgnoringCase lower a q || specContainsIgnoringCase lower b q) := by
  unfold eitherIncludes specContainsIgnoringCase
  cases h : includes (lower a) (lower q) <;> simp [h]

/-- C13 (as stated, refuted): after `POST /api/users` with the name `5` (a number)
the store holds a user whose name is not a string, and the search for `john`
responds 500 from the error handler, not 200. -/
theorem search_non_string_name_is_500 :
    (postUser initialUsers [("name", .num 5), ("email", .str "five@example.com")]).2.status = 201 ∧
      (search asciiLower (postUser initialUsers [("name", .num 5), ("email", .str "five@example.com")]).1
        initialPosts (some "john") none "user.name.toLowerCase is not a function"
        "production").status = 500 ∧
      (search asciiLower (postUser initialUsers [("name", .num 5), ("email", .str "five@example.com")]).1
        initialPosts (some "john") none "user.name.toLowerCase is not a function"
        "production").field "data" = none := by
  decide

/-- C13 (amended): `lower` is the method `toLowerCase`, and a string contains
`q` ignoring case when its lower-case form contains the lower-case form of `q`.
For every store in which the names and emails of the users and
the titles and contents of the posts are strings, and every non-empty query
`q`, GET /api/search responds 200 with `success = true`, `query = q`, data equal
to the matching users (wrapped with type `user`, in store order, when the type
is absent or `users`) followed by the matching posts (wrapped with type `post`,
when the type is absent or `posts`), and count equal to the length of data;
with type `users` every item has type `user`; a missing query gets 400. -/
theorem search_result (lower : String → String) (users : List User) (posts : List Post)
    (q : String) (type : Option String) (errMessage nodeEnv : String) (hq : q ≠ "")
    (hu : ∀ u ∈ users, ∃ name email, u.name = .str name ∧ u.email = .str email)
    (hp : ∀ p ∈ posts, ∃ title content, p.title = .str title ∧ p.content = .str content) :
    search lower users posts (some q) type errMessage nodeEnv =
        Response.json 200 [("success", .bool true), ("query", .str q),
          ("count", .num (specSearchData lower users posts q type).length),
          ("data", .arr (specSearchData lower users posts q type))] ∧
      (∀ item ∈ specSearchData lower users posts q (some "users"),
        ∃ u ∈ users, item = Json.obj [("type", .str "user"), ("data", u.toJson)]) ∧
      (search lower users posts none type errMessage nodeEnv).status = 400 ∧
      (search lower users posts none type errMessage nodeEnv).field "success" = some (.bool false) := by
  have hfu : filterThrowing (fun u : User => eitherIncludes lower u.name u.email q) users =
      some (specMatchingUsers lower users q) := by
    unfold specMatchingUsers
    apply filterThrowing_total
    intro u hmem
    obtain ⟨name, email, hn, he⟩ := hu u hmem
    simp only [hn, he, eitherIncludes_str]
  have hfp : filterThrowing (fun p : Post => eitherIncludes lower p.title p.content q) posts =
      some (specMatchingPosts lower posts q) := by
    unfold specMatchingPosts
    apply filterThrowing_total
    intro p hmem
    obtain ⟨title, content, ht, hc⟩ := hp p hmem
    simp only [ht, hc, eitherIncludes_str]
  have hres : searchResults lower users posts q type = some (specSearchData lower users posts q type) := by
    unfold searchResults specSearchData
    simp only [hfu, hfp, Option.map_some']
    cases type with
    | none => simp
    | some t =>
      by_cases h0 : t = ""
      · simp [h0]
      · by_cases h1 : t = "users"
        · have : ¬ t = "posts" := by rw [h1]; decide
          simp [h0, h1]
        · by_cases h2 : t = "posts"
          · simp [h0, h2]
          · simp [h0, h1, h2]
  refine ⟨?_, ?_, ?_, ?_⟩
  · simp only [search, hq, if_false, hres]
  · intro item hitem
    have hposts : ¬ ((some "users" : Option String) = none ∨ (some "users" : Option String) = some "" ∨
        (some "users" : Option String) = some "posts") := by decide
    simp only [specSearchData, if_neg hposts, List.append_nil, true_or, or_true, if_true,
      List.mem_map] at hitem
    obtain ⟨u, hmem, rfl⟩ := hitem
    exact ⟨u, List.mem_of_mem_filter hmem, rfl⟩
  · simp [search, Response.json]
  · simp [search, Response.json, Response.field, jsGet]

/-- C13 (amended), at the initial store and the query `John` with type `users`,
with the lower case of ASCII. -/
theorem search_result_witness :
    ("John" : String) ≠ "" ∧
    (search asciiLower initialUsers initialPosts (some "John") (some "users") "" "test" =
        Response.json 200 [("success", .bool true), ("query", .str "John"),
          ("count", .num (specSearchData asciiLower initialUsers initialPosts "John" (some "users")).length),
          ("data", .arr (specSearchData asciiLower initialUsers initialPosts "John" (some "users")))] ∧
      (∀ item ∈ specSearchData asciiLower initialUsers initialPosts "John" (some "users"),
        ∃ u ∈ initialUsers, item = Json.obj [("type", .str "user"), ("data", u.toJson)]) ∧
      (search asciiLower initialUsers initialPosts none (some "users") "" "test").status = 400 ∧
      (search asciiLower initialUsers initialPosts none (some "users") "" "test").field "success" =
        some (.bool false)) :=
  ⟨by decide,
    search_result asciiLower initialUsers initialPosts "John" (some "users") "" "test" (by decide)
      (by
        intro u hmem
        simp only [initialUsers, List.mem_cons, List.mem_singleton, List.mem_nil_iff,
          or_false] at hmem
        rcases hmem with rfl | rfl <;> exact ⟨_, _, rfl, rfl⟩)
      (by
        intro p hmem
        simp only [initialPosts, List.mem_cons, List.mem_singleton, List.mem_nil_iff,
          or_false] at hmem
        rcases hmem with rfl | rfl <;> exact ⟨_, _, rfl, rfl⟩)⟩

end Day17

namespace Day8

/-- Every string contains the empty string. -/
theorem includes_empty (s : String) : includes s "" = true := by
  unfold includes
  cases h : s.toList with
  | nil => rfl
  | cons c cs => simp [List.tails]

/-- The cut of the handler is the cut of the spec. -/
theorem limitOf_cut (limit : Option String) (l : List Obj) :
    (match limitOf limit with
      | some n => l.take n
      | none => l) = specCut limit l := by
  unfold limitOf specCut
  cases limit with
  | none => rfl
  | some s =>
    by_cases hs : s = ""
    · subst hs
      have : parseInt "" = none := by decide
      simp [this]
    · simp only [ne_eq, hs, not_false_eq_true, if_true, Option.bind_some, Option.some_bind]
      cases hp : parseInt s with
      | none => rfl
      | some n => by_cases hn : 0 < n <;> simp [hn]

set_option maxRecDepth 100000 in
set_option exponentiation.threshold 2000 in
/-- Values of `parseInt`: no number in `abc`; white space of Unicode is skipped;
an integer beyond 2^53 is rounded to a double; a number of 310 digits is
`Infinity`, and the handler then reports `requestedId` as `null`. -/
theorem parseIntNumber_examples :
    parseIntNumber "abc" = .nan ∧
      parseIntNumber "\u30001" = .finite 1 ∧
      parseIntNumber "9007199254740993" = .finite 9007199254740992 ∧
      parseIntNumber (String.mk (List.replicate 310 '9')) = .infinity false ∧
      (getProject projects (String.mk (List.replicate 310 '9'))).status = 404 ∧
      (getProject projects (String.mk (List.replicate 310 '9'))).field "requestedId" =
        some .null := by
  decide

/-- C14 (as stated, refuted): the parameter `1abc` is not a number, and the
response is 200 with project 1, because `parseInt` reads the leading `1`. -/
theorem getProject_lenient_parse :
    parseIntNumber "1abc" = .finite 1 ∧
      (getProject projects "1abc").status = 200 ∧
      (getProject projects "1abc").field "data" = (projects.head?.map Json.obj) := by
  decide

/-- C14 (amended): GET /api/projects/:id responds 400 (`'Invalid project ID
format. Must be a number.'`) for every id parameter in which `parseInt` finds no
number (`NaN`), 404 (`'Project not found'`, with `availableIds` listing all
project ids) when the number `parseInt` returns is the id of no project, where
`requestedId` is that number, `null` for an infinity, and 200 with the first
project whose id is that number otherwise. -/
theorem getProject_by_parsed_id (projects : List Obj) (idParam : String) :
    (parseIntNumber idParam = .nan →
      getProject projects idParam =
        Response.json 400 [("success", .bool false),
          ("error", .str "Invalid project ID format. Must be a number."),
          ("received", .str idParam)]) ∧
    (∀ n : Int, parseIntNumber idParam = .finite n →
      (∀ p ∈ projects, jsGet p "id" ≠ some (.num n)) →
      getProject projects idParam =
        Response.json 404 [("success", .bool false), ("error", .str "Project not found"),
          ("requestedId", .num n),
          ("availableIds", .arr (projects.map (fun p => (jsGet p "id").getD .null)))]) ∧
    (∀ negative : Bool, parseIntNumber idParam = .infinity negative →
      getProject projects idParam =
        Response.json 404 [("success", .bool false), ("error", .str "Project not found"),
          ("requestedId", .null),
          ("availableIds", .arr (projects.map (fun p => (jsGet p "id").getD .null)))]) ∧
    (∀ (n : Int) (p : Obj), parseIntNumber idParam = .finite n → p ∈ projects →
      jsGet p "id" = some (.num n) →
      ∃ first ∈ projects, jsGet first "id" = some (.num n) ∧
        projects.find? (fun item => decide (jsGet item "id" = some (.num n))) = some first ∧
        getProject projects idParam =
          Response.json 200 [("success", .bool true), ("data", .obj first)]) := by
  refine ⟨?_, ?_, ?_, ?_⟩
  · intro h
    simp [getProject, getItem, h]
  · intro n h hno
    have hfind : projects.find? (fun item => decide (jsGet item "id" = some (.num n))) = none := by
      rw [List.find?_eq_none]
      intro p hp
      simpa using hno p hp
    simp [getProject, getItem, h, hfind]
  · intro negative h
    simp [getProject, getItem, h]
  · intro n p h hp hid
    cases hfind : projects.find? (fun item => decide (jsGet item "id" = some (.num n))) with
    | none =>
      rw [List.find?_eq_none] at hfind
      have := hfind p hp
      simp [hid] at this
    | some first =>
      refine ⟨first, List.mem_of_find?_eq_some hfind, ?_, rfl, ?_⟩
      · simpa using List.find?_some hfind
      · simp [getProject, getItem, h, hfind]

end Day8

namespace Day8

/-- The category filter of the handler on a list whose categories are strings:
it does not throw and keeps the items whose category contains the parameter. -/
theorem category_stage (lower : String → String) (hempty : lower "" = "") (l : List Obj)
    (category : Option String)
    (hcat : ∀ p ∈ l, ∃ s, jsGet p "category" = some (.str s)) :
    (match category with
      | some c => if c ≠ "" then filterThrowing (fieldContains lower "category" c) l else some l
      | none => some l) =
    some (l.filter (specCategoryOk lower category)) := by
  cases category with
  | none =>
    have : specCategoryOk lower none = fun _ => true := by funext p; rfl
    simp [this]
  | some c =>
    have htotal : filterThrowing (fieldContains lower "category" c) l =
        some (l.filter (specCategoryOk lower (some c))) := by
      apply filterThrowing_total
      intro p hp
      obtain ⟨s, hs⟩ := hcat p hp
      simp [fieldContains, specCategoryOk, hs]
    by_cases hc : c = ""
    · subst hc
      simp only [ne_eq, not_true_eq_false, if_false, Option.some.injEq]
      symm
      rw [List.filter_eq_self]
      intro p hp
      obtain ⟨s, hs⟩ := hcat p hp
      simp only [specCategoryOk, hs, hempty]
      exact includes_empty _
    · simp only [ne_eq, hc, not_false_eq_true, if_true, htotal]

/-- The list handler on an array whose categories are strings: the response is
200 with the filtered and cut items. -/
theorem getProjects_of_string_categories (lower : String → String) (hempty : lower "" = "")
    (projects : List Obj) (featured category limit : Option String) (now : String)
    (hcat : ∀ p ∈ projects, ∃ s, jsGet p "category" = some (.str s)) :
    getProjects lower projects featured category limit now =
      Response.json 200 [("success", .bool true),
        ("count",
          .num (specCut limit (specFilteredProjects lower projects featured category)).length),
        ("total", .num projects.length),
        ("data", .arr ((specCut limit (specFilteredProjects lower projects featured
          category)).map Json.obj)),
        ("filters", .obj (definedProps [("featured", featured.map Json.str),
          ("category", category.map Json.str), ("limit", limit.map Json.str)]))] := by
  unfold getProjects listItems
  cases featured with
  | none =>
    have hspec : specFilteredProjects lower projects none category =
        projects.filter (specCategoryOk lower category) := by
      unfold specFilteredProjects
      simp [specFeaturedOk]
    simp only [category_stage lower hempty projects category hcat, limitOf_cut, hspec]
  | some f =>
    have hcat' : ∀ p ∈ projects.filter (fun item =>
        decide (jsGet item "featured" = some (.bool (decide (lower f = "true"))))),
        ∃ s, jsGet p "category" = some (.str s) :=
      fun p hp => hcat p (List.mem_of_mem_filter hp)
    have hspec : specFilteredProjects lower projects (some f) category =
        (projects.filter (fun item =>
          decide (jsGet item "featured" = some (.bool (decide (lower f = "true")))))).filter
          (specCategoryOk lower category) := by
      unfold specFilteredProjects
      rw [List.filter_filter]
      congr 1
      funext p
      simp only [specFeaturedOk]
      exact Bool.and_comm _ _
    simp only [category_stage lower hempty _ category hcat', limitOf_cut, hspec]

/-- The category of every project of the array is a string. -/
theorem projects_categories :
    ∀ p ∈ projects, ∃ s, jsGet p "category" = some (.str s) := by
  intro p hp
  simp only [projects, List.mem_cons, List.mem_singleton, List.mem_nil_iff, or_false] at hp
  rcases hp with rfl | rfl | rfl | rfl | rfl <;> exact ⟨_, rfl⟩

/-- C15: `lower` is the method `toLowerCase`, of which only the value on the
empty string is used. For every combination of `featured`, `category` and
`limit`, GET /api/projects responds with data equal to the projects of the
array that pass the featured test and the category test, in the order of the
array, cut to the first `n` when `limit` parses to a positive integer `n`; count
is the length of data and total the length of the whole array. -/
theorem getProjects_filtering (lower : String → String) (hempty : lower "" = "")
    (featured category limit : Option String) (now : String) :
    getProjects lower projects featured category limit now =
      Response.json 200 [("success", .bool true),
        ("count",
          .num (specCut limit (specFilteredProjects lower projects featured category)).length),
        ("total", .num projects.length),
        ("data", .arr ((specCut limit (specFilteredProjects lower projects featured
          category)).map Json.obj)),
        ("filters", .obj (definedProps [("featured", featured.map Json.str),
          ("category", category.map Json.str), ("limit", limit.map Json.str)]))] ∧
      List.Sublist (specCut limit (specFilteredProjects lower projects featured category))
        projects := by
  refine ⟨getProjects_of_string_categories lower hempty projects featured category limit now
    projects_categories, ?_⟩
  have hf : List.Sublist (specFilteredProjects lower projects featured category) projects :=
    List.filter_sublist _
  unfold specCut
  split
  · split
    · exact (List.take_sublist _ _).trans hf
    · exact hf
  · exact hf

/-- C15, with the lower case of ASCII, at `featured=TRUE`, `category=A` and a
limit of 2 written after an ideographic space: two of the three featured
projects whose category has an `a` are returned. -/
theorem getProjects_filtering_witness :
    asciiLower "" = "" ∧
    (getProjects asciiLower projects (some "TRUE") (some "A") (some "\u30002")
      "2025-01-01T00:00:00.000Z").field "count" = some (.num 2) ∧
    (getProjects asciiLower projects (some "TRUE") (some "A") (some "\u30002")
        "2025-01-01T00:00:00.000Z" =
      Response.json 200 [("success", .bool true),
        ("count",
          .num (specCut (some "\u30002")
            (specFilteredProjects asciiLower projects (some "TRUE") (some "A"))).length),
        ("total", .num projects.length),
        ("data", .arr ((specCut (some "\u30002")
          (specFilteredProjects asciiLower projects (some "TRUE") (some "A"))).map Json.obj)),
        ("filters", .obj (definedProps [("featured", (some "TRUE").map Json.str),
          ("category", (some "A").map Json.str), ("limit", (some "\u30002").map Json.str)]))] ∧
      List.Sublist
        (specCut (some "\u30002")
          (specFilteredProjects asciiLower projects (some "TRUE") (some "A")))
        projects) :=
  ⟨by decide, by decide,
    getProjects_filtering asciiLower (by decide) (some "TRUE") (some "A") (some "\u30002")
      "2025-01-01T00:00:00.000Z"⟩

end Day8

section Erase

/-- Removing an element that fails `p` does not change the elements that pass
`p`. -/
theorem filter_eraseIdx_of_false {α : Type} (p : α → Bool) (l : List α) (i : Nat) (x : α)
    (h : l[i]? = some x) (hx : p x = false) : (l.eraseIdx i).filter p = l.filter p := by
  induction l generalizing i with
  | nil => simp at h
  | cons a l ih =>
    cases i with
    | zero =>
      simp only [List.getElem?_cons_zero, Option.some.injEq] at h
      subst h
      simp [List.eraseIdx, List.filter_cons, hx]
    | succ j =>
      simp only [List.getElem?_cons_succ] at h
      simp [List.eraseIdx, List.filter_cons, ih j h]

end Erase

namespace Day11

/-- C16: with the collection as a list of documents and the driver answering,
for an id that `new ObjectId` accepts DELETE responds 204 with an empty body and
removes the (first) document with that `_id`, leaving the others in place, when
there is one, and responds 404 with `success = false` and leaves the collection
unchanged when there is none. -/
theorem deleteProject_spec (toObjectId : String → Option String) (coll : List Obj)
    (idParam hex : String) (h : toObjectId idParam = some hex) :
    ((∃ doc ∈ coll, jsGet doc "_id" = some (Mongo.oid hex)) →
      ∃ (i : Nat) (doc : Obj),
        coll[i]? = some doc ∧ jsGet doc "_id" = some (Mongo.oid hex) ∧
        deleteProject toObjectId coll false idParam = (coll.eraseIdx i, ⟨204, none⟩) ∧
        (coll.eraseIdx i).length + 1 = coll.length ∧
        (coll.eraseIdx i).filter (fun d => !decide (jsGet d "_id" = some (Mongo.oid hex))) =
          coll.filter (fun d => !decide (jsGet d "_id" = some (Mongo.oid hex)))) ∧
    ((∀ doc ∈ coll, jsGet doc "_id" ≠ some (Mongo.oid hex)) →
      deleteProject toObjectId coll false idParam = (coll, projectNotFound) ∧
        projectNotFound.status = 404 ∧
        projectNotFound.field "success" = some (.bool false)) := by
  constructor
  · intro hex'
    have h' : ∃ doc ∈ coll, (fun doc => decide (jsGet doc "_id" = some (Mongo.oid hex))) doc = true := by
      obtain ⟨d, hd, hid⟩ := hex'
      exact ⟨d, hd, by simp [hid]⟩
    obtain ⟨i, doc, hi, hdoc, hp, _⟩ := findIndex_of_exists _ coll h'
    have hid : jsGet doc "_id" = some (Mongo.oid hex) := by simpa using hp
    have hlt : i < coll.length := by
      rcases Nat.lt_or_ge i coll.length with hlt | hge
      · exact hlt
      · rw [List.getElem?_eq_none hge] at hdoc; cases hdoc
    refine ⟨i, doc, hdoc, hid, ?_, ?_, ?_⟩
    · simp [deleteProject, h, hi]
    · rw [List.length_eraseIdx, if_pos hlt]; omega
    · exact filter_eraseIdx_of_false _ coll i doc hdoc (by simp [hid])
  · intro hno
    have hnone : findIndex (fun doc => decide (jsGet doc "_id" = some (Mongo.oid hex))) coll =
        none := by
      cases hfi : findIndex (fun doc => decide (jsGet doc "_id" = some (Mongo.oid hex))) coll with
      | none => rfl
      | some i =>
        exfalso
        clear h
        induction coll generalizing i with
        | nil => simp [findIndex] at hfi
        | cons a l ih =>
          have ha : jsGet a "_id" ≠ some (Mongo.oid hex) := hno a (List.mem_cons_self a l)
          simp only [findIndex, ha, decide_False, Bool.false_eq_true, if_false,
            Option.map_eq_some'] at hfi
          obtain ⟨j, hj, _⟩ := hfi
          exact ih (fun d hd => hno d (List.mem_cons_of_mem a hd)) j hj
    refine ⟨?_, by decide, by decide⟩
    simp [deleteProject, h, hnone]

/-- C16, at a collection of two documents and the id of the second. -/
theorem deleteProject_spec_witness :
    Mongo.objectIdOfHex "0123456789abcdef01234567" = some "0123456789abcdef01234567" ∧
    (((∃ doc ∈ sampleCollection, jsGet doc "_id" = some (Mongo.oid "0123456789abcdef01234567")) →
      ∃ (i : Nat) (doc : Obj),
        sampleCollection[i]? = some doc ∧
        jsGet doc "_id" = some (Mongo.oid "0123456789abcdef01234567") ∧
        deleteProject Mongo.objectIdOfHex sampleCollection false "0123456789abcdef01234567" =
          (sampleCollection.eraseIdx i, ⟨204, none⟩) ∧
        (sampleCollection.eraseIdx i).length + 1 = sampleCollection.length ∧
        (sampleCollection.eraseIdx i).filter
            (fun d => !decide (jsGet d "_id" = some (Mongo.oid "0123456789abcdef01234567"))) =
          sampleCollection.filter
            (fun d => !decide (jsGet d "_id" = some (Mongo.oid "0123456789abcdef01234567")))) ∧
    ((∀ doc ∈ sampleCollection, jsGet doc "_id" ≠ some (Mongo.oid "0123456789abcdef01234567")) →
      deleteProject Mongo.objectIdOfHex sampleCollection false "0123456789abcdef01234567" =
        (sampleCollection, projectNotFound) ∧
        projectNotFound.status = 404 ∧
        projectNotFound.field "success" = some (.bool false))) :=
  ⟨by decide,
    deleteProject_spec Mongo.objectIdOfHex sampleCollection
      "0123456789abcdef01234567" "0123456789abcdef01234567" (by decide)⟩

end Day11

section Delete

/-- Reading after `delete o[k]`. -/
theorem jsGet_jsDelete (o : Obj) (k k' : String) :
    jsGet (jsDelete o k) k' = (if k' = k then none else jsGet o k') := by
  induction o with
  | nil => simp [jsDelete, jsGet]
  | cons e o ih =>
    have hstep : jsDelete (e :: o) k =
        (if e.1 = k then jsDelete o k else e :: jsDelete o k) := by
      by_cases he : e.1 = k <;> simp [jsDelete, List.filter_cons, he]
    rw [hstep]
    by_cases he : e.1 = k
    · rw [if_pos he, ih, jsGet_cons]
      by_cases hk : k' = k
      · simp [hk]
      · have : ¬ e.1 = k' := fun h => hk (h.symm.trans he)
        simp only [hk, if_false, this]
        cases jsGet o k' <;> rfl
    · rw [if_neg he, jsGet_cons, ih, jsGet_cons]
      by_cases hk : k' = k
      · have : ¬ e.1 = k' := fun h => he (h.trans hk)
        simp [hk, this, he]
      · simp [hk]

end Delete

namespace Day18

/-- C17: a register response with status 201 and a login response with status
200 carry as data the user document without its `password` field: the data has
no `password`, and every other field is that of the document; so two documents
that agree on every field but `password` give data that agree on every
field. -/
theorem auth_data_without_password (body : Obj) (findOne : Except String (Option Obj))
    (create : Except String Obj) (comparePassword : Except String Bool) (isLocked : Bool)
    (saved : Except String Obj) (token : String) :
    ((register body findOne create token).status = 201 →
      ∃ user, create = .ok user ∧
        (register body findOne create token).field "data" =
          some (.obj (jsDelete user "password"))) ∧
    ((login body findOne comparePassword isLocked saved token).status = 200 →
      ∃ user, saved = .ok user ∧
        (login body findOne comparePassword isLocked saved token).field "data" =
          some (.obj (jsDelete user "password"))) ∧
    (∀ user : Obj, jsGet (jsDelete user "password") "password" = none ∧
      ∀ k, k ≠ "password" → jsGet (jsDelete user "password") k = jsGet user k) ∧
    (∀ user user' : Obj, (∀ k, k ≠ "password" → jsGet user k = jsGet user' k) →
      ∀ k, jsGet (jsDelete user "password") k = jsGet (jsDelete user' "password") k) ∧
    (∀ user : Obj, truthy (jsGet body "name") = true → truthy (jsGet body "email") = true →
      truthy (jsGet body "password") = true →
      (register body (.ok none) (.ok user) token).status = 201 ∧
      (∀ found : Obj,
        (login body (.ok (some found)) (.ok true) false (.ok user) token).status = 200)) := by
  refine ⟨?_, ?_, ?_, ?_, ?_⟩
  · intro h
    cases hc : (!truthy (jsGet body "name") || !truthy (jsGet body "email") ||
        !truthy (jsGet body "password"))
    · rcases findOne with e | (_ | found)
      · simp [register, hc, authFailed, Response.json] at h
      · rcases create with e | user
        · simp [register, hc, authFailed, Response.json] at h
        · exact ⟨user, rfl, by simp [register, hc, Response.json, Response.field, jsGet]⟩
      · simp [register, hc, Response.json] at h
    · simp [register, hc, Response.json] at h
  · intro h
    cases hc : (!truthy (jsGet body "email") || !truthy (jsGet body "password"))
    · rcases findOne with e | (_ | found)
      · simp [login, hc, authFailed, Response.json] at h
      · simp [login, hc, Response.json] at h
      · rcases comparePassword with e | (_ | _)
        · simp [login, hc, authFailed, Response.json] at h
        · simp [login, hc, Response.json] at h
        · cases isLocked
          · rcases saved with e | user
            · simp [login, hc, authFailed, Response.json] at h
            · exact ⟨user, rfl, by simp [login, hc, Response.json, Response.field, jsGet]⟩
          · simp [login, hc, Response.json] at h
    · simp [login, hc, Response.json] at h
  · intro user
    refine ⟨by simp [jsGet_jsDelete], fun k hk => by simp [jsGet_jsDelete, hk]⟩
  · intro user user' hagree k
    rw [jsGet_jsDelete, jsGet_jsDelete]
    by_cases hk : k = "password"
    · simp [hk]
    · simp [hk, hagree k hk]
  · intro user hn he hp
    refine ⟨by simp [register, hn, he, hp, Response.json], fun found => ?_⟩
    simp [login, he, hp, Response.json]

end Day18

namespace Day18

/-- C18 (as stated, refuted): a login for an existing user whose `isLocked` flag is
true, with a password that does not match, responds 401, not 423. -/
theorem login_locked_wrong_password_is_401 :
    (login [("email", .str "locked@example.com"), ("password", .str "wrong")]
        (.ok (some [("email", .str "locked@example.com"), ("password", .str "hash")]))
        (.ok false) true (.error "") "token").status = 401 ∧
      (login [("email", .str "locked@example.com"), ("password", .str "wrong")]
        (.ok (some [("email", .str "locked@example.com"), ("password", .str "hash")]))
        (.ok false) true (.error "") "token").field "message" =
        some (.str "Invalid credentials") := by
  decide

/-- C18 (amended): for a login request that supplies an email and a password for
an existing user whose `isLocked` flag is true, the response is 423 (`'Account
is temporarily locked due to too many failed attempts'`) when the password
matches, and 401 when it does not (500 when the comparison throws); in every
case the response carries no token. -/
theorem login_locked (body found : Obj) (comparePassword : Except String Bool)
    (saved : Except String Obj) (token : String)
    (he : truthy (jsGet body "email") = true) (hp : truthy (jsGet body "password") = true) :
    (comparePassword = .ok true →
      login body (.ok (some found)) comparePassword true saved token =
        Response.json 423 [("success", .bool false),
          ("message", .str "Account is temporarily locked due to too many failed attempts")]) ∧
    (comparePassword = .ok false →
      login body (.ok (some found)) comparePassword true saved token =
        Response.json 401 [("success", .bool false), ("message", .str "Invalid credentials")]) ∧
    (∀ e, comparePassword = .error e →
      (login body (.ok (some found)) comparePassword true saved token).status = 500) ∧
    (login body (.ok (some found)) comparePassword true saved token).field "token" = none := by
  refine ⟨?_, ?_, ?_, ?_⟩
  · intro hc
    simp [login, he, hp, hc]
  · intro hc
    simp [login, he, hp, hc]
  · intro e hc
    simp [login, he, hp, hc, authFailed, Response.json]
  · rcases comparePassword with e | (_ | _) <;>
      simp [login, he, hp, authFailed, Response.json, Response.field, jsGet]

/-- C18 (amended), at a locked user and the matching password. -/
theorem login_locked_witness :
    truthy (jsGet [("email", Json.str "locked@example.com"), ("password", Json.str "right")]
        "email") = true ∧
    truthy (jsGet [("email", Json.str "locked@example.com"), ("password", Json.str "right")]
        "password") = true ∧
    ((Except.ok true = (Except.ok true : Except String Bool) →
      login [("email", .str "locked@example.com"), ("password", .str "right")]
        (.ok (some [("email", .str "locked@example.com"), ("password", .str "hash")]))
        (.ok true) true (.error "") "token" =
        Response.json 423 [("success", .bool false),
          ("message", .str "Account is temporarily locked due to too many failed attempts")]) ∧
    (Except.ok true = (Except.ok false : Except String Bool) →
      login [("email", .str "locked@example.com"), ("password", .str "right")]
        (.ok (some [("email", .str "locked@example.com"), ("password", .str "hash")]))
        (.ok true) true (.error "") "token" =
        Response.json 401 [("success", .bool false), ("message", .str "Invalid credentials")]) ∧
    (∀ e, Except.ok true = (Except.error e : Except String Bool) →
      (login [("email", .str "locked@example.com"), ("password", .str "right")]
        (.ok (some [("email", .str "locked@example.com"), ("password", .str "hash")]))
        (.ok true) true (.error "") "token").status = 500) ∧
    (login [("email", .str "locked@example.com"), ("password", .str "right")]
      (.ok (some [("email", .str "locked@example.com"), ("password", .str "hash")]))
      (.ok true) true (.error "") "token").field "token" = none) :=
  ⟨by decide, by decide,
    login_locked [("email", .str "locked@example.com"), ("password", .str "right")]
      [("email", .str "locked@example.com"), ("password", .str "hash")]
      (.ok true) (.error "") "token" (by decide) (by decide)⟩

end Day18

namespace Day25

/-- The names after a counting step. -/
theorem bumpOwn_keys (o : List (String × Nat)) (t : String) :
    (bumpOwn o t).map Prod.fst =
      (if t ∈ o.map Prod.fst then o.map Prod.fst else o.map Prod.fst ++ [t]) := by
  induction o with
  | nil => simp [bumpOwn]
  | cons e o ih =>
    obtain ⟨k, c⟩ := e
    by_cases hk : k = t
    · subst hk
      simp [bumpOwn]
    · have hne : ¬ t = k := fun h => hk h.symm
      simp only [bumpOwn, hk, if_false, List.map_cons, ih, List.mem_cons, hne, false_or]
      split_ifs <;> simp

/-- An entry of another name after a counting step was there before. -/
theorem bumpOwn_mem_other (o : List (String × Nat)) (t : String) (e : String × Nat)
    (he : e ∈ bumpOwn o t) (hne : e.1 ≠ t) : e ∈ o := by
  induction o with
  | nil =>
    simp only [bumpOwn, List.mem_singleton] at he
    subst he
    exact absurd rfl hne
  | cons a o ih =>
    obtain ⟨k, c⟩ := a
    by_cases hk : k = t
    · subst hk
      simp only [bumpOwn, if_true, List.mem_cons] at he
      rcases he with rfl | he
      · exact absurd rfl hne
      · exact List.mem_cons_of_mem _ he
    · simp only [bumpOwn, hk, if_false, List.mem_cons] at he
      rcases he with rfl | he
      · exact List.mem_cons_self _ _
      · exact List.mem_cons_of_mem _ (ih he)

/-- The entry of the counted name after a counting step: 1 for a new name, one
more than before for a name that was there. -/
theorem bumpOwn_mem_same (o : List (String × Nat)) (t : String) (c : Nat)
    (hnd : (o.map Prod.fst).Nodup) (he : (t, c) ∈ bumpOwn o t) :
    (t ∉ o.map Prod.fst ∧ c = 1) ∨ (∃ c0, (t, c0) ∈ o ∧ c = c0 + 1) := by
  induction o with
  | nil =>
    simp only [bumpOwn, List.mem_singleton, Prod.mk.injEq, true_and] at he
    exact Or.inl ⟨by simp, he⟩
  | cons a o ih =>
    obtain ⟨k, c1⟩ := a
    simp only [List.map_cons, List.nodup_cons] at hnd
    by_cases hk : k = t
    · subst hk
      simp only [bumpOwn, if_true, List.mem_cons, Prod.mk.injEq, true_and] at he
      rcases he with rfl | he
      · exact Or.inr ⟨c1, List.mem_cons_self _ _, rfl⟩
      · exact absurd (List.mem_map_of_mem Prod.fst he) hnd.1
    · simp only [bumpOwn, hk, if_false, List.mem_cons, Prod.mk.injEq] at he
      rcases he with ⟨h1, _⟩ | he
      · exact absurd h1.symm hk
      · rcases ih hnd.2 he with ⟨hnot, hc⟩ | ⟨c0, hc0, hc⟩
        · refine Or.inl ⟨?_, hc⟩
          simp only [List.map_cons, List.mem_cons, not_or]
          exact ⟨fun h => hk h.symm, hnot⟩
        · exact Or.inr ⟨c0, List.mem_cons_of_mem _ hc0, hc⟩

/-- The invariant of the counting loop: after the technologies `seen`, the names
of `skillCount` are distinct, each count is the number of occurrences in `seen`,
and every technology of `seen` has an entry. -/
theorem countSkills_invariant (techs seen : List String) (o : List (String × Nat))
    (hsafe : ∀ t ∈ techs, t ≠ "__proto__")
    (hnd : (o.map Prod.fst).Nodup)
    (hcount : ∀ e ∈ o, e.2 = seen.count e.1)
    (hall : ∀ s ∈ seen, s ∈ o.map Prod.fst) :
    ((techs.foldl bumpSkill o).map Prod.fst).Nodup ∧
      (∀ e ∈ techs.foldl bumpSkill o, e.2 = (seen ++ techs).count e.1) ∧
      (∀ s ∈ seen ++ techs, s ∈ (techs.foldl bumpSkill o).map Prod.fst) := by
  induction techs generalizing seen o with
  | nil =>
    simp only [List.foldl_nil, List.append_nil]
    exact ⟨hnd, hcount, hall⟩
  | cons t techs ih =>
    have ht : t ≠ "__proto__" := hsafe t (List.mem_cons_self _ _)
    have hstep : bumpSkill o t = bumpOwn o t := by simp [bumpSkill, ht]
    have hkeys := bumpOwn_keys o t
    have hnd' : ((bumpOwn o t).map Prod.fst).Nodup := by
      rw [hkeys]
      split_ifs with hmem
      · exact hnd
      · rw [List.nodup_append]
        refine ⟨hnd, List.nodup_singleton t, ?_⟩
        intro a ha hb
        simp only [List.mem_singleton] at hb
        subst hb
        exact hmem ha
    have hcount' : ∀ e ∈ bumpOwn o t, e.2 = (seen ++ [t]).count e.1 := by
      intro e he
      rw [List.count_append, List.count_singleton]
      by_cases hne : e.1 = t
      · obtain ⟨k, c⟩ := e
        simp only at hne
        subst hne
        simp only [beq_self_eq_true, if_true]
        rcases bumpOwn_mem_same o k c hnd he with ⟨hnot, hc⟩ | ⟨c0, hc0, hc⟩
        · have hzero : seen.count k = 0 := by
            rw [List.count_eq_zero]
            exact fun hin => hnot (hall k hin)
          simp [hc, hzero]
        · have := hcount _ hc0
          simp only at this
          simp [hc, this]
      · have hold := bumpOwn_mem_other o t e he hne
        have hbeq : (t == e.1) = false := by
          simp only [beq_eq_false_iff_ne, ne_eq]
          exact fun h => hne h.symm
        simp [hcount e hold, hbeq]
    have hall' : ∀ s ∈ seen ++ [t], s ∈ (bumpOwn o t).map Prod.fst := by
      intro s hs
      rw [hkeys]
      simp only [List.mem_append, List.mem_singleton] at hs
      split_ifs with hmem
      · rcases hs with hs | rfl
        · exact hall s hs
        · exact hmem
      · rcases hs with hs | rfl
        · exact List.mem_append_left _ (hall s hs)
        · simp
    have := ih (seen ++ [t]) (bumpOwn o t)
      (fun x hx => hsafe x (List.mem_cons_of_mem _ hx)) hnd' hcount' hall'
    simpa [List.foldl_cons, hstep, List.append_assoc] using this

end Day25
namespace Day25

/-- The entries listed are the entries of the object, in another order. -/
theorem objectEntries_perm (o : List (String × Nat)) : (objectEntries o).Perm o := by
  unfold objectEntries
  exact ((List.perm_insertionSort indexLe _).append_right _).trans
    (List.filter_append_perm (fun e => isArrayIndex e.1) o)

/-- C19 (as stated, refuted): the skill `__proto__` occurs twice and is left out,
while `React`, which occurs once, is included; and for the skill `constructor`
the count is no number. -/
theorem getTopSkills_proto_left_out :
    getTopSkills [["__proto__", "React"], ["__proto__"]] = some [("React", 1)] ∧
      List.count "__proto__" [["__proto__", "React"], ["__proto__"]].flatten = 2 ∧
      List.count "React" [["__proto__", "React"], ["__proto__"]].flatten = 1 ∧
      getTopSkills [["constructor"]] = none := by
  decide

/-- C19 (amended): for technologies lists in which no name is `__proto__` or the
name of a method inherited from `Object.prototype`, `getTopSkills` returns at
most 10 entries with pairwise distinct skill names, ordered by non-increasing
count, in which each count is the number of occurrences of the skill over all
technologies lists, and no skill left out has more occurrences than a skill
that is included. -/
theorem getTopSkills_spec (experiences : List (List String))
    (hsafe : ∀ t ∈ experiences.flatten, t ≠ "__proto__" ∧ t ∉ inheritedKeys) :
    ∃ top, getTopSkills experiences = some top ∧
      top.length ≤ 10 ∧
      (top.map Prod.fst).Nodup ∧
      top.Pairwise (fun a b => b.2 ≤ a.2) ∧
      (∀ e ∈ top, e.2 = experiences.flatten.count e.1) ∧
      (∀ s ∈ experiences.flatten, s ∉ top.map Prod.fst →
        ∀ e ∈ top, experiences.flatten.count s ≤ e.2) := by
  have hany : experiences.flatten.any (fun tech => inheritedKeys.contains tech) = false := by
    rw [List.any_eq_false]
    intro t ht
    simpa using (hsafe t ht).2
  obtain ⟨hnd, hcount, hall⟩ := countSkills_invariant experiences.flatten [] []
    (fun t ht => (hsafe t ht).1) (by simp) (by simp) (by simp)
  simp only [List.nil_append] at hcount hall
  have hperm : (List.insertionSort countDesc
      (objectEntries (experiences.flatten.foldl bumpSkill []))).Perm
      (experiences.flatten.foldl bumpSkill []) :=
    (List.perm_insertionSort countDesc _).trans (objectEntries_perm _)
  have hsorted : (List.insertionSort countDesc
      (objectEntries (experiences.flatten.foldl bumpSkill []))).Pairwise countDesc :=
    List.sorted_insertionSort countDesc _
  have hget : getTopSkills experiences =
      some ((List.insertionSort countDesc
        (objectEntries (experiences.flatten.foldl bumpSkill []))).take 10) := by
    simp only [getTopSkills, hany, Bool.false_eq_true, if_false]
  refine ⟨_, hget, ?_⟩
  generalize List.insertionSort countDesc
      (objectEntries (experiences.flatten.foldl bumpSkill [])) = sorted at hperm hsorted ⊢
  generalize experiences.flatten.foldl bumpSkill [] = counted at hnd hcount hall hperm
  have hsub : (sorted.take 10).Sublist sorted := List.take_sublist 10 sorted
  refine ⟨?_, ?_, ?_, ?_, ?_⟩
  · exact List.length_take_le 10 sorted
  · exact ((hperm.map Prod.fst).nodup_iff.2 hnd).sublist (hsub.map Prod.fst)
  · exact hsorted.sublist hsub
  · intro e he
    exact hcount e (hperm.subset (hsub.subset he))
  · intro s hs hnot e he
    obtain ⟨⟨k, c⟩, hmem, hk⟩ := List.mem_map.1 (hall s hs)
    simp only at hk
    subst hk
    have hc : c = experiences.flatten.count k := hcount _ hmem
    have hin : (k, c) ∈ sorted := hperm.symm.subset hmem
    rw [← List.take_append_drop 10 sorted] at hin hsorted
    rcases List.mem_append.1 hin with h1 | h2
    · exact absurd (List.mem_map_of_mem Prod.fst h1) hnot
    · have := (List.pairwise_append.1 hsorted).2.2 e he (k, c) h2
      simp only [countDesc] at this
      rw [← hc]
      exact this

/-- C19 (amended), at the technologies of the first two experiences of the
store. -/
theorem getTopSkills_spec_witness :
    (∀ t ∈ [["React", "TypeScript", "Node.js", "GraphQL", "AWS", "Docker"],
        ["React", "Azure DevOps", "TypeScript", "PostgreSQL", ".NET Core"]].flatten,
      t ≠ "__proto__" ∧ t ∉ inheritedKeys) ∧
    ∃ top, getTopSkills [["React", "TypeScript", "Node.js", "GraphQL", "AWS", "Docker"],
        ["React", "Azure DevOps", "TypeScript", "PostgreSQL", ".NET Core"]] = some top ∧
      top.length ≤ 10 ∧
      (top.map Prod.fst).Nodup ∧
      top.Pairwise (fun a b => b.2 ≤ a.2) ∧
      (∀ e ∈ top, e.2 = [["React", "TypeScript", "Node.js", "GraphQL", "AWS", "Docker"],
        ["React", "Azure DevOps", "TypeScript", "PostgreSQL", ".NET Core"]].flatten.count e.1) ∧
      (∀ s ∈ [["React", "TypeScript", "Node.js", "GraphQL", "AWS", "Docker"],
          ["React", "Azure DevOps", "TypeScript", "PostgreSQL", ".NET Core"]].flatten,
        s ∉ top.map Prod.fst →
        ∀ e ∈ top, [["React", "TypeScript", "Node.js", "GraphQL", "AWS", "Docker"],
          ["React", "Azure DevOps", "TypeScript", "PostgreSQL", ".NET Core"]].flatten.count s ≤
          e.2) :=
  ⟨by decide,
    getTopSkills_spec [["React", "TypeScript", "Node.js", "GraphQL", "AWS", "Docker"],
      ["React", "Azure DevOps", "TypeScript", "PostgreSQL", ".NET Core"]] (by decide)⟩

end Day25

end MernAscent
